import Mathlib

/-!
Verification of the Mares Icon HD dive-log parser
(`src/mares_iconhd_parser.c`) against its natural-language specification.

The C code is shallowly embedded: byte buffers become functions `Nat → Nat`
(every read is masked by `% 256`, matching `unsigned char` access), machine
integers become `Nat` with explicit `% 2^32` where 32-bit wraparound is
possible, fallible operations return `Except DcStatus`, the sample callback
becomes an explicitly accumulated list of sample events, and C `double`
results become exact rationals (`ℚ`), which is faithful for every property
proved here (all numerators and divisors are exact).
-/

/-- Status codes returned by the parser (the subset of `dc_status_t` this
translation unit can produce). -/
inductive DcStatus
  | success
  | dataformat
  | unsupported
  deriving DecidableEq, Repr

/-- A byte buffer: the byte at index `i` is `d i % 256`.  C pointer
arithmetic `data + k` is modelled with `shiftBytes`. -/
def Bytes : Type := Nat → Nat

/-- Byte access `data[i]`, masked to `unsigned char` range. -/
def u8 (d : Bytes) (i : Nat) : Nat := d i % 256

/-- Pointer offset: `shiftBytes d k` models the C pointer `d + k`. -/
def shiftBytes (d : Bytes) (k : Nat) : Bytes := fun i => d (k + i)

/-- The external primitive `array_uint16_le` (little-endian 16-bit read). -/
def array_uint16_le (d : Bytes) (i : Nat) : Nat :=
  u8 d i + 256 * u8 d (i + 1)

/-- The external primitive `array_uint32_le` (little-endian 32-bit read). -/
def array_uint32_le (d : Bytes) (i : Nat) : Nat :=
  u8 d i + 256 * u8 d (i + 1) + 65536 * u8 d (i + 2) + 16777216 * u8 d (i + 3)

/-- The external primitive `array_uint32_be` (big-endian 32-bit read). -/
def array_uint32_be (d : Bytes) (i : Nat) : Nat :=
  16777216 * u8 d i + 65536 * u8 d (i + 1) + 256 * u8 d (i + 2) + u8 d (i + 3)

-- Model identifiers (`#define` constants from the source).
def SMART : Nat := 0x000010
def SMARTAPNEA : Nat := 0x010010
def ICONHD : Nat := 0x14
def ICONHDNET : Nat := 0x15
def GENIUS : Nat := 0x1C
def QUADAIR : Nat := 0x23
def SMARTAIR : Nat := 0x24

-- Dive modes of the non-GENIUS family.
def ICONHD_AIR : Nat := 0
def ICONHD_GAUGE : Nat := 1
def ICONHD_NITROX : Nat := 2
def ICONHD_FREEDIVE : Nat := 3

-- GENIUS record framing constants.
def DSTR_TYPE : Nat := 0x44535452
def DSTR_SIZE : Nat := 58
def TISS_TYPE : Nat := 0x54495353
def TISS_SIZE : Nat := 138
def DPRS_TYPE : Nat := 0x44505253
def DPRS_SIZE : Nat := 34
def AIRS_TYPE : Nat := 0x41495253
def AIRS_SIZE : Nat := 16
def DEND_TYPE : Nat := 0x44454E44
def DEND_SIZE : Nat := 162

/-- One gas mix, as cached in `mares_iconhd_gasmix_t`. -/
structure GasmixRec where
  oxygen : Nat
  helium : Nat
  deriving DecidableEq, Repr

/-- One tank, as cached in `mares_iconhd_tank_t`. -/
structure TankRec where
  volume : Nat
  workpressure : Nat
  beginpressure : Nat
  endpressure : Nat
  deriving DecidableEq, Repr

/-- The parser state `mares_iconhd_parser_t`, together with the base
fields `data`/`size` of the abstract `dc_parser_t` that this translation
unit reads and writes.  The fixed C arrays `gasmix[5]`/`tank[5]` are
modelled as total functions; the code only ever indexes them below 5. -/
structure DiveParser where
  model : Nat
  cached : Bool
  mode : Nat
  nsamples : Nat
  samplesize : Nat
  headersize : Nat
  settings : Nat
  interval : Nat
  samplerate : Nat
  ntanks : Nat
  ngasmixes : Nat
  gasmix : Nat → GasmixRec
  tank : Nat → TankRec
  data : Bytes
  size : Nat

/-- Default values written by `mares_iconhd_parser_create`. -/
def mares_iconhd_parser_create (model : Nat) (d : Bytes) (size : Nat) : DiveParser where
  model := model
  cached := false
  mode := if model = GENIUS then 0 else ICONHD_AIR
  nsamples := 0
  samplesize := 0
  headersize := 0
  settings := 0
  interval := 0
  samplerate := 0
  ntanks := 0
  ngasmixes := 0
  gasmix := fun _ => ⟨0, 0⟩
  tank := fun _ => ⟨0, 0, 0, 0⟩
  data := d
  size := size

/-- `mares_iconhd_parser_set_data`: replaces the buffer and resets every
cached field to the construction-time defaults. -/
def mares_iconhd_parser_set_data (p : DiveParser) (d : Bytes) (size : Nat) : DiveParser :=
  { mares_iconhd_parser_create p.model d size with model := p.model }

/-- Modelled from the spec: the external CRC-16/CCITT primitive
(`checksum_crc16_ccitt` from `checksum.c`, which is not part of `src/`).
One byte step of the MSB-first CRC with polynomial 0x1021. -/
def crc16_step (crc b : Nat) : Nat :=
  (List.range 8).foldl
    (fun c _ => if c.testBit 15 then ((c <<< 1) ^^^ 0x1021) % 65536 else (c <<< 1) % 65536)
    ((crc ^^^ (b <<< 8)) % 65536)

/-- Modelled from the spec: CRC-16/CCITT over an explicit list of bytes,
starting from `init`. -/
def crc16_ccitt_list (bytes : List Nat) (init : Nat) : Nat :=
  bytes.foldl crc16_step init

/-- Modelled from the spec: the external `checksum_crc16_ccitt (data, size,
init)` primitive, reading `size` bytes from the buffer. -/
def checksum_crc16_ccitt (d : Bytes) (size init : Nat) : Nat :=
  crc16_ccitt_list ((List.range size).map (u8 d)) init

/-- The bytes of the half-open index range `[a, b)` of a buffer. -/
def byteRange (d : Bytes) (a b : Nat) : List Nat :=
  (List.range (b - a)).map (fun k => u8 d (a + k))

/-- `mares_genius_isvalid`: a GENIUS sub-record is valid when it is at
least 10 bytes, carries the expected big-endian type tag at both ends, and
its trailing little-endian CRC matches the CRC-16/CCITT of the enclosed
bytes. -/
def mares_genius_isvalid (d : Bytes) (size : Nat) (ty : Nat) : Bool :=
  if size < 10 then false
  else
    let head := array_uint32_be d 0
    let tail := array_uint32_be d (size - 4)
    if head ≠ ty ∨ tail ≠ ty then false
    else
      let crc := array_uint16_le d (size - 6)
      let ccrc := checksum_crc16_ccitt (shiftBytes d 4) (size - 10) 0
      if crc ≠ ccrc then false
      else true

/-- The three models the source groups together at lines 193, 211, 250
(`SMART`, `SMARTAPNEA`, `SMARTAIR`). -/
def smartFamily (m : Nat) : Bool :=
  m = SMART || m = SMARTAPNEA || m = SMARTAIR

/-- The initial per-model `header` value of `mares_iconhd_cache`
(lines 188-196). -/
def stdHeader0 (m : Nat) : Nat :=
  if m = ICONHDNET then 0x80
  else if m = QUADAIR then 0x84
  else if m = SMART || m = SMARTAIR then 4
  else if m = SMARTAPNEA then 6
  else 0x5C

/-- The declared length `array_uint32_le (data)` (line 203). -/
def stdLength (d : Bytes) : Nat := array_uint32_le d 0

/-- The 16-bit `type` field (lines 211-217): the SMART family reads it at
`length - header + 2`, every other model at `length - header + 0`. -/
def stdType (m : Nat) (d : Bytes) : Nat :=
  if smartFamily m then array_uint16_le d (stdLength d - stdHeader0 m + 2)
  else array_uint16_le d (stdLength d - stdHeader0 m)

/-- The 16-bit sample count (lines 211-217): the SMART family reads it at
`length - header + 0`, every other model at `length - header + 2`. -/
def stdNsamples (m : Nat) (d : Bytes) : Nat :=
  if smartFamily m then array_uint16_le d (stdLength d - stdHeader0 m)
  else array_uint16_le d (stdLength d - stdHeader0 m + 2)

/-- The dive mode `type & 0x03` (line 220). -/
def stdMode (m : Nat) (d : Bytes) : Nat := stdType m d &&& 0x03

/-- The re-derived header size (lines 223-242). -/
def stdHeadersize (m : Nat) (d : Bytes) : Nat :=
  if m = ICONHDNET then 0x80
  else if m = QUADAIR || m = SMARTAIR then 0x84
  else if m = SMART then (if stdMode m d = ICONHD_FREEDIVE then 0x2E else 0x5C)
  else if m = SMARTAPNEA then 0x50
  else 0x5C

/-- The re-derived sample size (lines 223-242). -/
def stdSamplesize (m : Nat) (d : Bytes) : Nat :=
  if m = ICONHDNET then 12
  else if m = QUADAIR || m = SMARTAIR then 12
  else if m = SMART then (if stdMode m d = ICONHD_FREEDIVE then 6 else 8)
  else if m = SMARTAPNEA then 14
  else 8

/-- The header-fields pointer `p` of the standard path (lines 249-252):
`data + length - headersize`, plus 4 for models outside the SMART family. -/
def stdBase (m : Nat) (d : Bytes) : Nat :=
  stdLength d - stdHeadersize m d + (if smartFamily m then 0 else 4)

/-- The settings bitfield (lines 255-262).  Note that the freedive case
tests `parser->mode` — the mode value already stored in the parser, passed
here as `storedMode` — not the mode just decoded from this buffer. -/
def stdSettings (m storedMode : Nat) (d : Bytes) : Nat :=
  if m = SMARTAPNEA then array_uint16_le d (stdBase m d + 0x1C)
  else if storedMode = ICONHD_FREEDIVE then array_uint16_le d (stdBase m d + 0x08)
  else array_uint16_le d (stdBase m d + 0x0C)

/-- The sample interval (lines 265-276). -/
def stdInterval (m storedMode : Nat) (d : Bytes) : Nat :=
  if m = SMARTAPNEA then 1
  else [1, 5, 10, 20].getD ((stdSettings m storedMode d &&& 0x0C00) >>> 10) 0

/-- The sample rate (lines 265-276). -/
def stdSamplerate (m storedMode : Nat) (d : Bytes) : Nat :=
  if m = SMARTAPNEA then 1 <<< ((stdSettings m storedMode d &&& 0x0600) >>> 9)
  else 1

/-- The air-integrated models of the standard path (line 280). -/
def stdAirIntegrated (m : Nat) : Bool :=
  m = ICONHDNET || m = QUADAIR || m = SMARTAIR

/-- The recomputed total byte count `nbytes` (lines 279-285), in 32-bit
arithmetic: all terms are below `2^32` except the SMARTAPNEA
`divetime * samplerate * 2` term, which can wrap as in the C code. -/
def stdNbytes (m storedMode : Nat) (d : Bytes) : Nat :=
  (4 + stdHeadersize m d + stdNsamples m d * stdSamplesize m d +
    (if stdAirIntegrated m then (stdNsamples m d / 4) * 8
     else if m = SMARTAPNEA then
       array_uint32_le d (stdBase m d + 0x24) * stdSamplerate m storedMode d * 2
     else 0)) % 4294967296

/-- Models the C scanning loops `while (n < limit) { if (inactive) break;
...; n++; }`: the number of slots scanned before the first inactive one,
starting at slot `i`, with `fuel` slots left before the capacity bound. -/
def activeLenFrom (f : Nat → Bool) (i : Nat) : Nat → Nat
  | 0 => 0
  | fuel + 1 => if f i then activeLenFrom f (i + 1) fuel + 1 else 0

/-- Length of the active prefix among slots `0 .. limit-1`. -/
def activeLen (f : Nat → Bool) (limit : Nat) : Nat := activeLenFrom f 0 limit

/-- Gas-mix slot activity on the standard path (line 306): slot `i` is
active while the high bit of byte `p[0x10 + i*4 + 1]` is clear. -/
def iconhdGasActive (m : Nat) (d : Bytes) (i : Nat) : Bool :=
  u8 d (stdBase m d + 0x10 + i * 4 + 1) &&& 0x80 = 0

/-- Number of cached gas mixes on the standard path (lines 292-312). -/
def stdNgasmixes (m : Nat) (d : Bytes) : Nat :=
  if stdMode m d = ICONHD_GAUGE || stdMode m d = ICONHD_FREEDIVE then 0
  else if stdMode m d = ICONHD_AIR then 1
  else activeLen (iconhdGasActive m d) 3

/-- The gas mix cached for slot `i` on the standard path (only consulted
for `i < stdNgasmixes`). -/
def stdGasmix (m : Nat) (d : Bytes) (i : Nat) : GasmixRec :=
  if stdMode m d = ICONHD_AIR then ⟨21, 0⟩
  else ⟨u8 d (stdBase m d + 0x10 + i * 4), 0⟩

/-- The tank-block offset of the standard path (line 318). -/
def stdTankoffset (m : Nat) : Nat := if m = ICONHDNET then 0x58 else 0x5C

/-- The tank values read for slot `i` on the standard path (lines 320-323). -/
def stdTank (m : Nat) (d : Bytes) (i : Nat) : TankRec where
  volume := array_uint16_le d (stdBase m d + stdTankoffset m + 0x0C + i * 8)
  workpressure := array_uint16_le d (stdBase m d + stdTankoffset m + 0x0C + i * 8 + 2)
  beginpressure := array_uint16_le d (stdBase m d + stdTankoffset m + i * 4)
  endpressure := array_uint16_le d (stdBase m d + stdTankoffset m + i * 4 + 2)

/-- Tank slot activity on the standard path (line 324): the scan stops at
the first slot with `beginpressure == 0` and `endpressure` 0 or 36000. -/
def iconhdTankActive (m : Nat) (d : Bytes) (i : Nat) : Bool :=
  ¬((stdTank m d i).beginpressure = 0 ∧
    ((stdTank m d i).endpressure = 0 ∨ (stdTank m d i).endpressure = 36000))

/-- Number of cached tanks on the standard path (lines 315-328). -/
def stdNtanks (m : Nat) (d : Bytes) : Nat :=
  if stdAirIntegrated m then activeLen (iconhdTankActive m d) 3 else 0

/-- `mares_iconhd_cache`: the standard (non-GENIUS) header-cache pass.
Returns the updated parser on success; every failure is `DataFormat`. -/
def mares_iconhd_cache (p : DiveParser) : Except DcStatus DiveParser :=
  if p.size < 4 then .error .dataformat
  else if stdLength p.data < 4 + stdHeader0 p.model ∨ p.size < stdLength p.data then
    .error .dataformat
  else if stdLength p.data < 4 + stdHeadersize p.model p.data then .error .dataformat
  else if stdLength p.data ≠ stdNbytes p.model p.mode p.data then .error .dataformat
  else .ok { p with
    size := stdLength p.data
    mode := stdMode p.model p.data
    nsamples := stdNsamples p.model p.data
    samplesize := stdSamplesize p.model p.data
    headersize := stdHeadersize p.model p.data
    settings := stdSettings p.model p.mode p.data
    interval := stdInterval p.model p.mode p.data
    samplerate := stdSamplerate p.model p.mode p.data
    ntanks := stdNtanks p.model p.data
    ngasmixes := stdNgasmixes p.model p.data
    gasmix := fun i =>
      if i < stdNgasmixes p.model p.data then stdGasmix p.model p.data i else p.gasmix i
    tank := fun i =>
      if i < stdNtanks p.model p.data then stdTank p.model p.data i else p.tank i
    cached := true }

/-- The GENIUS header-type check (lines 367-374): object type 1,
version 0.0. -/
def geniusHeaderOk (d : Bytes) : Prop :=
  array_uint16_le d 0 = 1 ∧ u8 d 2 = 0 ∧ u8 d 3 = 0

instance (d : Bytes) : Decidable (geniusHeaderOk d) := by
  unfold geniusHeaderOk; infer_instance

/-- The GENIUS sample count, read at offset 0x20 (line 384). -/
def geniusNsamples (d : Bytes) : Nat := array_uint16_le d 0x20

/-- The GENIUS settings word, read at offset 0x0C (line 387). -/
def geniusSettings (d : Bytes) : Nat := array_uint32_le d 0x0C

/-- The recomputed GENIUS total size (line 393):
`headersize + 4 + DSTR + TISS + n*DPRS + (n/4)*AIRS + DEND` in 32-bit
arithmetic (the value cannot actually exceed `2^32` since `n < 2^16`). -/
def geniusNbytes (d : Bytes) : Nat :=
  (0xB8 + 4 + DSTR_SIZE + TISS_SIZE + geniusNsamples d * DPRS_SIZE +
    (geniusNsamples d / 4) * AIRS_SIZE + DEND_SIZE) % 4294967296

/-- The packed gas-mix parameter word of GENIUS slot `i` (line 406). -/
def geniusGasmixparams (d : Bytes) (i : Nat) : Nat :=
  array_uint32_le d (0x54 + i * 20)

/-- Activation state of GENIUS gas-mix slot `i` (line 415): the two bits
at offset 21 of the parameter word; the slot is counted while the state is
not `GASMIX_OFF` (0). -/
def geniusGasActive (d : Bytes) (i : Nat) : Bool :=
  (geniusGasmixparams d i >>> 21) &&& 0x03 ≠ 0

/-- The gas mix decoded from GENIUS slot `i` (lines 412-414). -/
def geniusGasmix (d : Bytes) (i : Nat) : GasmixRec where
  oxygen := geniusGasmixparams d i &&& 0x7F
  helium := (geniusGasmixparams d i >>> 14) &&& 0x7F

/-- The tank values of GENIUS slot `i` (lines 407-410). -/
def geniusTank (d : Bytes) (i : Nat) : TankRec where
  volume := array_uint16_le d (0x54 + i * 20 + 8)
  workpressure := array_uint16_le d (0x54 + i * 20 + 10)
  beginpressure := array_uint16_le d (0x54 + i * 20 + 4)
  endpressure := array_uint16_le d (0x54 + i * 20 + 6)

/-- Activity of the GENIUS transmitter in slot `i` (line 433). -/
def geniusTankActive (d : Bytes) (i : Nat) : Bool :=
  (geniusTank d i).beginpressure ≠ 0 ∨
    ((geniusTank d i).endpressure ≠ 0 ∧ (geniusTank d i).endpressure ≠ 36000)

/-- Running state of the GENIUS gas-mix/tank scan: the counters and the
local `gasmix[5]`/`tank[5]` arrays (zero-initialised in the C code). -/
structure GScan where
  ngasmixes : Nat
  gasmix : Nat → GasmixRec
  ntanks : Nat
  tank : Nat → TankRec

/-- The zero-initialised scan state (line 402-403). -/
def gscanZero : GScan where
  ngasmixes := 0
  gasmix := fun _ => ⟨0, 0⟩
  ntanks := 0
  tank := fun _ => ⟨0, 0, 0, 0⟩

/-- One iteration of the GENIUS slot loop (lines 404-441): slot `i` is
counted as a gas mix only when active and when the running count equals
`i`; independently for the tank. -/
def geniusScanStep (d : Bytes) (s : GScan) (i : Nat) : GScan :=
  let s1 :=
    if geniusGasActive d i ∧ s.ngasmixes = i then
      { s with
        ngasmixes := s.ngasmixes + 1
        gasmix := fun j => if j = i then geniusGasmix d i else s.gasmix j }
    else s
  if geniusTankActive d i ∧ s1.ntanks = i then
    { s1 with
      ntanks := s1.ntanks + 1
      tank := fun j => if j = i then geniusTank d i else s1.tank j }
  else s1

/-- The full GENIUS scan over the five fixed slots. -/
def geniusScan (d : Bytes) : GScan :=
  (List.range 5).foldl (geniusScanStep d) gscanZero

/-- `mares_genius_cache`: the GENIUS (nested-framing) header-cache pass.
Every failure is `DataFormat`; the size test is an upper bound
(`nbytes > size` fails), not an equality. -/
def mares_genius_cache (p : DiveParser) : Except DcStatus DiveParser :=
  if p.size < 4 then .error .dataformat
  else if ¬geniusHeaderOk p.data then .error .dataformat
  else if p.size < 0xB8 then .error .dataformat
  else if p.size < geniusNbytes p.data then .error .dataformat
  else .ok { p with
    mode := geniusSettings p.data &&& 0xF
    nsamples := geniusNsamples p.data
    samplesize := DPRS_SIZE
    headersize := 0xB8
    settings := geniusSettings p.data
    interval := 5
    samplerate := 1
    ntanks := (geniusScan p.data).ntanks
    ngasmixes := (geniusScan p.data).ngasmixes
    gasmix := fun i =>
      if i < (geniusScan p.data).ngasmixes then (geniusScan p.data).gasmix i else p.gasmix i
    tank := fun i =>
      if i < (geniusScan p.data).ntanks then (geniusScan p.data).tank i else p.tank i
    cached := true }

/-- `mares_iconhd_parser_cache`: dispatches to the per-family cache pass,
or returns immediately when the parser is already cached. -/
def mares_iconhd_parser_cache (p : DiveParser) : Except DcStatus DiveParser :=
  if p.cached then .ok p
  else if p.model = GENIUS then mares_genius_cache p
  else mares_iconhd_cache p

/-- Modelled from the spec: unit-conversion constants from the external
`<libdivecomputer/units.h>` header (not part of `src/`); exact rationals
for the standard physical constants it defines.  No claim proved below
depends on the numeric values. -/
def POUND : ℚ := 45359237 / 100000000

/-- Modelled from the spec: metres per foot (external units header). -/
def FEET : ℚ := 3048 / 10000

/-- Modelled from the spec: metres per inch (external units header). -/
def INCH : ℚ := 254 / 10000

/-- Modelled from the spec: standard gravity (external units header). -/
def GRAVITY : ℚ := 980665 / 100000

/-- Modelled from the spec: one atmosphere in pascal (external units
header). -/
def ATM : ℚ := 101325

/-- Modelled from the spec: one bar in pascal (external units header). -/
def BAR : ℚ := 100000

/-- Modelled from the spec: one metre of sea water in pascal (external
units header). -/
def MSW : ℚ := BAR / 10

/-- Modelled from the spec: one psi in pascal (external units header). -/
def PSI : ℚ := (POUND * GRAVITY) / (INCH * INCH)

/-- Modelled from the spec: one cubic foot in cubic metres (external units
header). -/
def CUFT : ℚ := FEET * FEET * FEET

/-- Modelled from the spec: the `DC_GASMIX_UNKNOWN` sentinel
(`(unsigned int) -1`) from the external public headers. -/
def DC_GASMIX_UNKNOWN : Nat := 0xFFFFFFFF

/-- The field kinds of `dc_field_type_t` handled by this parser; `other`
stands for every kind that falls into the `default:` arm. -/
inductive DcField
  | divetime
  | maxdepth
  | gasmixCount
  | gasmixField
  | tankCount
  | tankField
  | atmospheric
  | salinity
  | tempMin
  | tempMax
  | divemode
  | other
  deriving DecidableEq, Repr

/-- Dive modes of the public `dc_divemode_t` enum used here. -/
inductive DMode
  | oc
  | gauge
  | freedive
  deriving DecidableEq, Repr

/-- The value written through the output pointer of `get_field`, one
constructor per output type. -/
inductive DcValue
  | uval (v : Nat)
  | rval (v : ℚ)
  | mix (oxygen helium nitrogen : ℚ)
  | tankv (metric : Bool) (volume workpressure beginpressure endpressure : ℚ) (gm : Nat)
  | water (fresh : Bool) (density : ℚ)
  | dmode (m : DMode)
  deriving DecidableEq, Repr

/-- Interpretation of a 16-bit read as C `(signed short)` (lines 741-757). -/
def sgn16 (v : Nat) : ℤ :=
  if v < 0x8000 then (v : ℤ) else (v : ℤ) - 65536

/-- The header pointer of the accessors (lines 564-570 and 617-624): the
raw buffer for GENIUS, otherwise `data + size - headersize` plus 4 outside
the SMART family, using the post-cache `size`. -/
def fieldBase (p : DiveParser) : Nat :=
  if p.model = GENIUS then 0
  else p.size - p.headersize + (if smartFamily p.model then 0 else 4)

/-- The metric/imperial flag (line 626). -/
def fieldMetric (p : DiveParser) : Nat :=
  if p.model = GENIUS then u8 p.data 0x34 else p.settings &&& 0x0100

/-- The freedive dive-time accumulation loop of `DC_FIELD_DIVETIME`
(lines 640-646): sums the 16-bit dive times of `n` records starting at
offset 4 of the raw buffer. -/
def freediveDivetime (d : Bytes) (samplesize : Nat) : Nat → Nat → Nat
  | 0, _ => 0
  | n + 1, offset => array_uint16_le d (offset + 2) + freediveDivetime d samplesize n (offset + samplesize)

/-- The `DC_FIELD_SALINITY` branch (lines 703-737). -/
def fieldSalinity (p : DiveParser) : DcStatus × Option DcValue :=
  if p.model = GENIUS then
    let salinity := (p.settings >>> 5) &&& 0x03
    if salinity = 1 then (.success, some (.water true 0))
    else if salinity = 0 then (.success, some (.water false 0))
    else if salinity = 2 then (.success, some (.water false (MSW / GRAVITY)))
    else (.dataformat, none)
  else if p.model = SMARTAPNEA then
    let salinity := p.settings &&& 0x003F
    (.success, some (.water (salinity = 0) (1000 + (salinity : ℚ))))
  else
    (.success, some (.water (p.settings &&& 0x0010 ≠ 0) 0))

/-- The `DC_FIELD_DIVEMODE` branch (lines 759-792). -/
def fieldDivemode (p : DiveParser) : DcStatus × Option DcValue :=
  if p.model = GENIUS then
    if p.mode ≤ 3 then (.success, some (.dmode .oc))
    else if p.mode = 4 then (.success, some (.dmode .gauge))
    else if p.mode = 5 then (.success, some (.dmode .freedive))
    else (.dataformat, none)
  else
    if p.mode = ICONHD_AIR ∨ p.mode = ICONHD_NITROX then (.success, some (.dmode .oc))
    else if p.mode = ICONHD_GAUGE then (.success, some (.dmode .gauge))
    else if p.mode = ICONHD_FREEDIVE then (.success, some (.dmode .freedive))
    else (.dataformat, none)

/-- The `DC_FIELD_TANK` branch (lines 672-692). -/
def fieldTank (p : DiveParser) (flags : Nat) : DcStatus × Option DcValue :=
  let t := p.tank flags
  let gm := if flags < p.ngasmixes then flags else DC_GASMIX_UNKNOWN
  if fieldMetric p ≠ 0 then
    (.success, some (.tankv true (t.volume : ℚ) (t.workpressure : ℚ)
      ((t.beginpressure : ℚ) / 100) ((t.endpressure : ℚ) / 100) gm))
  else if t.workpressure = 0 then (.dataformat, none)
  else
    (.success, some (.tankv false
      ((t.volume : ℚ) * CUFT * 1000 / ((t.workpressure : ℚ) * PSI / ATM))
      ((t.workpressure : ℚ) * PSI / BAR)
      ((t.beginpressure : ℚ) / 100) ((t.endpressure : ℚ) / 100) gm))

/-- `mares_iconhd_parser_get_field`: caches the header, then computes the
requested field.  `hasValue = false` models a NULL output pointer: the C
code then skips the whole `switch` and returns success. -/
def mares_iconhd_parser_get_field
    (p0 : DiveParser) (ty : DcField) (flags : Nat) (hasValue : Bool) :
    DcStatus × Option DcValue :=
  match mares_iconhd_parser_cache p0 with
  | .error s => (s, none)
  | .ok p =>
    if hasValue = false then (.success, none)
    else
      let d := p.data
      let base := fieldBase p
      match ty with
      | .divetime =>
        if p.model = GENIUS then (.success, some (.uval (p.nsamples * p.interval)))
        else if p.model = SMARTAPNEA then
          (.success, some (.uval (array_uint16_le d (base + 0x24))))
        else if p.mode = ICONHD_FREEDIVE then
          (.success, some (.uval (freediveDivetime d p.samplesize p.nsamples 4)))
        else (.success, some (.uval (p.nsamples * p.interval)))
      | .maxdepth =>
        if p.model = GENIUS then (.success, some (.rval ((array_uint16_le d (base + 0x22) : ℚ) / 10)))
        else if p.model = SMARTAPNEA then (.success, some (.rval ((array_uint16_le d (base + 0x3A) : ℚ) / 10)))
        else if p.mode = ICONHD_FREEDIVE then (.success, some (.rval ((array_uint16_le d (base + 0x1A) : ℚ) / 10)))
        else (.success, some (.rval ((array_uint16_le d (base + 0x00) : ℚ) / 10)))
      | .gasmixCount => (.success, some (.uval p.ngasmixes))
      | .gasmixField =>
        (.success, some (.mix ((p.gasmix flags).oxygen / 100)
          ((p.gasmix flags).helium / 100)
          (1 - (p.gasmix flags).oxygen / 100 - (p.gasmix flags).helium / 100)))
      | .tankCount => (.success, some (.uval p.ntanks))
      | .tankField => fieldTank p flags
      | .atmospheric =>
        if p.model = GENIUS then (.success, some (.rval ((array_uint16_le d (base + 0x3E) : ℚ) / 1000)))
        else if p.model = SMARTAPNEA then (.success, some (.rval ((array_uint16_le d (base + 0x38) : ℚ) / 1000)))
        else if p.mode = ICONHD_FREEDIVE then (.success, some (.rval ((array_uint16_le d (base + 0x18) : ℚ) / 1000)))
        else (.success, some (.rval ((array_uint16_le d (base + 0x22) : ℚ) / 8000)))
      | .salinity => fieldSalinity p
      | .tempMin =>
        if p.model = GENIUS then (.success, some (.rval ((sgn16 (array_uint16_le d (base + 0x28)) : ℚ) / 10)))
        else if p.model = SMARTAPNEA then (.success, some (.rval ((sgn16 (array_uint16_le d (base + 0x3E)) : ℚ) / 10)))
        else if p.mode = ICONHD_FREEDIVE then (.success, some (.rval ((sgn16 (array_uint16_le d (base + 0x1C)) : ℚ) / 10)))
        else (.success, some (.rval ((sgn16 (array_uint16_le d (base + 0x42)) : ℚ) / 10)))
      | .tempMax =>
        if p.model = GENIUS then (.success, some (.rval ((sgn16 (array_uint16_le d (base + 0x26)) : ℚ) / 10)))
        else if p.model = SMARTAPNEA then (.success, some (.rval ((sgn16 (array_uint16_le d (base + 0x3C)) : ℚ) / 10)))
        else if p.mode = ICONHD_FREEDIVE then (.success, some (.rval ((sgn16 (array_uint16_le d (base + 0x1E)) : ℚ) / 10)))
        else (.success, some (.rval ((sgn16 (array_uint16_le d (base + 0x44)) : ℚ) / 10)))
      | .divemode => fieldDivemode p
      | .other => (.unsupported, none)

/-- The `dc_datetime_t` output of `get_datetime` (timezone is always
`DC_TIMEZONE_NONE`, so it is omitted). -/
structure DTime where
  year : Nat
  month : Nat
  day : Nat
  hour : Nat
  minute : Nat
  second : Nat
  deriving DecidableEq, Repr

/-- `mares_iconhd_parser_get_datetime`: caches the header and decodes the
timestamp; `hasPtr = false` models a NULL `datetime` pointer, for which
the C code performs no field reads and still returns success. -/
def mares_iconhd_parser_get_datetime (p0 : DiveParser) (hasPtr : Bool) :
    DcStatus × Option DTime :=
  match mares_iconhd_parser_cache p0 with
  | .error s => (s, none)
  | .ok p =>
    let base :=
      fieldBase p +
        (if p.model = GENIUS then 0x08
         else if p.model = SMARTAPNEA then 0x40
         else if p.mode = ICONHD_FREEDIVE then 0x20
         else 2)
    if hasPtr = false then (.success, none)
    else if p.model = GENIUS then
      let ts := array_uint32_le p.data base
      (.success, some {
        hour := ts &&& 0x1F
        minute := (ts >>> 5) &&& 0x3F
        second := 0
        day := (ts >>> 11) &&& 0x1F
        month := (ts >>> 16) &&& 0x0F
        year := (ts >>> 20) &&& 0x0FFF })
    else
      (.success, some {
        hour := array_uint16_le p.data base
        minute := array_uint16_le p.data (base + 2)
        second := 0
        day := array_uint16_le p.data (base + 4)
        month := array_uint16_le p.data (base + 6) + 1
        year := array_uint16_le p.data (base + 8) + 1900 })

/-- A sample event delivered to the caller-supplied callback, one
constructor per `DC_SAMPLE_*` kind emitted by this parser.  For deco,
`stop = true` is `DC_DECO_DECOSTOP` and `stop = false` is `DC_DECO_NDL`. -/
inductive SEvent
  | time (t : Nat)
  | depth (v : ℚ)
  | temperature (v : ℚ)
  | gasmixEv (idx : Nat)
  | deco (stop : Bool) (ddepth : ℚ) (dtime : Nat)
  | eventAscent
  | eventCeiling
  | pressure (tankIdx : Nat) (v : ℚ)
  deriving DecidableEq, Repr

/-- Mapping from one alarm bit index to the emitted event (lines 988-1007):
bits 2/3 (`FAST_ASCENT`, `UNCONTROLLED_ASCENT`) raise an ascent event,
bits 7/8 (`MISSED_DECO`, `DIVE_VIOLATION_DECO`) a ceiling event, every
other bit raises nothing. -/
def alarmEvent (i : Nat) : List SEvent :=
  if i = 2 ∨ i = 3 then [.eventAscent]
  else if i = 7 ∨ i = 8 then [.eventCeiling]
  else []

/-- The alarm loop `for (v = alarms, i = 0; v; v >>= 1, ++i)`
(lines 983-1008), with explicit fuel: the loop halves `v` each round, so
32 rounds always suffice for the 32-bit `alarms` value. -/
def alarmLoop (fuel : Nat) (v i : Nat) : List SEvent :=
  match fuel with
  | 0 => []
  | fuel + 1 =>
    if v = 0 then []
    else (if v % 2 = 1 then alarmEvent i else []) ++ alarmLoop fuel (v / 2) (i + 1)

/-- All alarm events of one GENIUS sample record. -/
def mares_genius_alarm_events (alarms : Nat) : List SEvent := alarmLoop 32 alarms 0

/-- The inner SMARTAPNEA loop (lines 884-896): `divetime` depth readings,
each advancing the clock by `interval` and the offset by
`2 * samplerate`.  Returns the final offset and time, and the events. -/
def apneaInner (d : Bytes) (interval samplerate : Nat) :
    Nat → Nat → Nat → Nat × Nat × List SEvent
  | 0, offset, time => (offset, time, [])
  | n + 1, offset, time =>
    let t1 := time + interval
    let depth := array_uint16_le d offset
    let rest := apneaInner d interval samplerate n (offset + 2 * samplerate) t1
    (rest.1, rest.2.1, .time t1 :: .depth ((depth : ℚ) / 10) :: rest.2.2)

/-- The record-type marker size (lines 829, 859): 4 for GENIUS, else 0. -/
def markerOf (m : Nat) : Nat := if m = GENIUS then 4 else 0

/-- Whether the sample walk consumes air-integration sub-records
(line 826). -/
def isAirModel (m : Nat) : Bool :=
  m = ICONHDNET || m = QUADAIR || m = SMARTAIR || m = GENIUS

/-- The depth field of a standard/GENIUS sample record (lines 931, 937). -/
def recDepth (m : Nat) (d : Bytes) (offset : Nat) : Nat :=
  if m = GENIUS then array_uint16_le d (offset + markerOf m)
  else array_uint16_le d offset

/-- The temperature field of a standard/GENIUS sample record
(lines 932, 938). -/
def recTemp (m : Nat) (d : Bytes) (offset : Nat) : Nat :=
  if m = GENIUS then array_uint16_le d (offset + markerOf m + 4)
  else array_uint16_le d (offset + 2) &&& 0x0FFF

/-- The packed `misc` word of a GENIUS sample record (line 934). -/
def recMisc (d : Bytes) (offset : Nat) : Nat :=
  array_uint32_le d (offset + 4 + 0x14)

/-- The gas-mix index of a standard/GENIUS sample record (lines 935, 939). -/
def recGasmix (m : Nat) (d : Bytes) (offset : Nat) : Nat :=
  if m = GENIUS then (recMisc d offset >>> 6) &&& 0xF
  else (u8 d (offset + 3) &&& 0xF0) >>> 4

/-- The alarms word of a GENIUS sample record (line 933). -/
def recAlarms (d : Bytes) (offset : Nat) : Nat :=
  array_uint32_le d (offset + 4 + 0x0C)

/-- The deco event of a GENIUS sample record (lines 969-980). -/
def geniusDecoEvent (d : Bytes) (offset : Nat) : SEvent :=
  let misc := recMisc d offset
  let dtime := array_uint16_le d (offset + 4 + 0x0A) * 60
  if (misc >>> 18) &&& 0x01 ≠ 0 then .deco true (((misc >>> 19) &&& 0x7F : Nat) : ℚ) dtime
  else .deco false 0 dtime

/-- One iteration of the sample walk (the body of the `while` loop,
lines 864-1034).  `done` is the number of logical samples already
produced (the C `nsamples` counter before this record); the result is the
next `(offset, time, gasmix_previous)` state, or the aborting status,
together with the events delivered during this iteration. -/
def mares_iconhd_sample_step (p : DiveParser) (d : Bytes) (done offset time prev : Nat) :
    Except DcStatus (Nat × Nat × Nat) × List SEvent :=
  if p.model = SMARTAPNEA then
    let divetime := array_uint16_le d (offset + 2)
    let surftime := array_uint16_le d (offset + 4)
    let t1 := time + surftime
    let inner := apneaInner d p.interval p.samplerate divetime (offset + p.samplesize) t1
    (.ok (inner.1, inner.2.1, prev), .time t1 :: .depth 0 :: inner.2.2)
  else if p.model ≠ GENIUS ∧ p.mode = ICONHD_FREEDIVE then
    let maxdepth := array_uint16_le d offset
    let divetime := array_uint16_le d (offset + 2)
    let surftime := array_uint16_le d (offset + 4)
    let t1 := time + surftime
    let t2 := t1 + divetime
    (.ok (offset + p.samplesize, t2, prev),
      [.time t1, .depth 0, .time t2, .depth ((maxdepth : ℚ) / 10)])
  else if p.model = GENIUS ∧ ¬mares_genius_isvalid (shiftBytes d offset) DPRS_SIZE DPRS_TYPE then
    (.error .dataformat, [])
  else
    let gm := recGasmix p.model d offset
    let t1 := time + p.interval
    let evs0 : List SEvent :=
      [.time t1, .depth ((recDepth p.model d offset : ℚ) / 10),
       .temperature ((recTemp p.model d offset : ℚ) / 10)]
    if 0 < p.ngasmixes ∧ p.ngasmixes ≤ gm then (.error .dataformat, evs0)
    else
      let gasEvs : List SEvent :=
        if 0 < p.ngasmixes ∧ gm ≠ prev then [.gasmixEv gm] else []
      let prev1 := if 0 < p.ngasmixes then gm else prev
      let extraEvs : List SEvent :=
        if p.model = GENIUS then
          geniusDecoEvent d offset :: mares_genius_alarm_events (recAlarms d offset)
        else []
      let offset1 := offset + p.samplesize
      if isAirModel p.model ∧ (done + 1) % 4 = 0 then
        if p.model = GENIUS ∧ ¬mares_genius_isvalid (shiftBytes d offset1) AIRS_SIZE AIRS_TYPE then
          (.error .dataformat, evs0 ++ gasEvs ++ extraEvs)
        else
          let pressure := array_uint16_le d (offset1 + markerOf p.model)
          let pEvs : List SEvent :=
            if gm < p.ntanks then [.pressure gm ((pressure : ℚ) / 100)] else []
          (.ok (offset1 + (if p.model = GENIUS then AIRS_SIZE else 8), t1, prev1),
            evs0 ++ gasEvs ++ extraEvs ++ pEvs)
      else
        (.ok (offset1, t1, prev1), evs0 ++ gasEvs ++ extraEvs)

/-- The sample walk: iterates `mares_iconhd_sample_step` until the
remaining sample count `r` reaches zero, accumulating the delivered
events; an aborting step ends the walk with the events delivered so far. -/
def mares_iconhd_sample_loop (p : DiveParser) (d : Bytes) :
    Nat → Nat → Nat → Nat → Nat → Except DcStatus (Nat × Nat × Nat) × List SEvent
  | _, 0, offset, time, prev => (.ok (offset, time, prev), [])
  | done, r + 1, offset, time, prev =>
    match mares_iconhd_sample_step p d done offset time prev with
    | (.error s, evs) => (.error s, evs)
    | (.ok (o1, t1, pv1), evs) =>
      let rest := mares_iconhd_sample_loop p d (done + 1) r o1 t1 pv1
      (rest.1, evs ++ rest.2)

/-- The GENIUS profile-section tag check (lines 835-842): type 0,
version 2.0. -/
def geniusProfileOk (d : Bytes) : Prop :=
  array_uint16_le d 0 = 0 ∧ u8 d 2 = 2 ∧ u8 d 3 = 0

instance (d : Bytes) : Decidable (geniusProfileOk d) := by
  unfold geniusProfileOk; infer_instance

/-- `mares_iconhd_parser_samples_foreach`: caches the header, validates
the GENIUS framing (profile tag, DSTR, TISS), runs the sample walk, and
for GENIUS finally requires a valid DEND record.  The returned list holds
every event delivered to the callback before the walk ended. -/
def mares_iconhd_parser_samples_foreach (p0 : DiveParser) :
    Except DcStatus Unit × List SEvent :=
  match mares_iconhd_parser_cache p0 with
  | .error s => (.error s, [])
  | .ok p =>
    if p.model = GENIUS then
      let d := shiftBytes p.data p.headersize
      if ¬geniusProfileOk d then (.error .dataformat, [])
      else if ¬mares_genius_isvalid (shiftBytes d 4) DSTR_SIZE DSTR_TYPE then
        (.error .dataformat, [])
      else if ¬mares_genius_isvalid (shiftBytes d (4 + DSTR_SIZE)) TISS_SIZE TISS_TYPE then
        (.error .dataformat, [])
      else
        let run := mares_iconhd_sample_loop p d 0 p.nsamples (4 + DSTR_SIZE + TISS_SIZE) 0 0xFFFFFFFF
        match run with
        | (.error s, evs) => (.error s, evs)
        | (.ok (offset, _, _), evs) =>
          if ¬mares_genius_isvalid (shiftBytes d offset) DEND_SIZE DEND_TYPE then
            (.error .dataformat, evs)
          else (.ok (), evs)
    else
      let run := mares_iconhd_sample_loop p p.data 0 p.nsamples 4 0 0xFFFFFFFF
      (run.1.map (fun _ => ()), run.2)

/-- A freshly constructed parser holding a buffer: the state after
`create` followed by `set_data` (all cached fields at their defaults). -/
def freshParser (m : Nat) (d : Bytes) (size : Nat) : DiveParser :=
  mares_iconhd_parser_set_data (mares_iconhd_parser_create m d size) d size

/-- A 96-byte SMART buffer: declared length `0x60 = 4 + 0x5C`, zero
samples, air mode, settings `0x0100` (metric units, interval code 0). -/
def smartBuf : Bytes := fun i =>
  if i = 0 then 0x60 else if i = 17 then 0x01 else 0

/-- A SMART parser holding `smartBuf`. -/
def pSmart : DiveParser := freshParser SMART smartBuf 96

/-- The same buffer with a declared length of 95, which cannot match the
recomputed size. -/
def smartBadBuf : Bytes := fun i => if i = 0 then 95 else 0

/-- A SMART parser holding `smartBadBuf`. -/
def pSmartBad : DiveParser := freshParser SMART smartBadBuf 96

/-- A 96-byte ICONHD buffer whose trailer type decodes to the freedive
mode (3): byte 16 (= trailer + 0x08 position) is 0x99 while byte 20
(= trailer + 0x0C position) is 0x34. -/
def iconhdFreediveBuf : Bytes := fun i =>
  if i = 0 then 0x60 else if i = 4 then 3
  else if i = 16 then 0x99 else if i = 20 then 0x34 else 0

/-- An ICONHD parser holding `iconhdFreediveBuf`. -/
def pIconhdFreedive : DiveParser := freshParser ICONHD iconhdFreediveBuf 96

/-- A 104-byte ICONHD air-mode buffer with one sample; the bytes at
offsets 16-19 (where the claimed `+4` type/count reads would land) differ
from the real type/count at offsets 12-15. -/
def iconhdC2Buf : Bytes := fun i =>
  if i = 0 then 0x68 else if i = 14 then 1 else if i = 18 then 7 else 0

/-- An ICONHD parser holding `iconhdC2Buf`. -/
def pIconhdC2 : DiveParser := freshParser ICONHD iconhdC2Buf 104

/-- A 104-byte ICONHD gauge-mode buffer (zero gas mixes) with one sample
whose gas-mix nibble is 3. -/
def iconhdGaugeBuf : Bytes := fun i =>
  if i = 0 then 0x68 else if i = 7 then 0x30
  else if i = 12 then 1 else if i = 14 then 1 else 0

/-- An ICONHD parser holding `iconhdGaugeBuf`. -/
def pIconhdGauge : DiveParser := freshParser ICONHD iconhdGaugeBuf 104

/-- A 104-byte ICONHD nitrox-mode buffer with one active gas mix (slot 1
is marked disabled) and one sample whose gas-mix nibble is 1 — equal to
the cached count. -/
def iconhdNitroxBuf : Bytes := fun i =>
  if i = 0 then 0x68 else if i = 7 then 0x10
  else if i = 12 then 2 else if i = 14 then 1 else if i = 37 then 0x80 else 0

/-- An ICONHD parser holding `iconhdNitroxBuf`. -/
def pIconhdNitrox : DiveParser := freshParser ICONHD iconhdNitroxBuf 104

/-- A GENIUS buffer with zero samples: header type 1 version 0.0, profile
type 0 version 2.0 at offset 0xB8, a CRC-valid all-zero DSTR record at
offset 0xBC and TISS record at offset 0xF6, and an invalid (all-zero)
DEND record at offset 0x180.  The recomputed size is 546; the declared
buffer size 600 exceeds it. -/
def geniusBuf : Bytes := fun i =>
  if i = 0 then 1 else if i = 186 then 2
  else if i = 188 then 0x44 else if i = 189 then 0x53
  else if i = 190 then 0x54 else if i = 191 then 0x52
  else if i = 242 then 0x44 else if i = 243 then 0x53
  else if i = 244 then 0x54 else if i = 245 then 0x52
  else if i = 246 then 0x54 else if i = 247 then 0x49
  else if i = 248 then 0x53 else if i = 249 then 0x53
  else if i = 380 then 0x54 else if i = 381 then 0x49
  else if i = 382 then 0x53 else if i = 383 then 0x53
  else 0

/-- A GENIUS parser holding `geniusBuf`. -/
def pGenius : DiveParser := freshParser GENIUS geniusBuf 600

/-- The same GENIUS buffer declared with size 545, one byte short of the
recomputed total. -/
def pGeniusShort : DiveParser := freshParser GENIUS geniusBuf 545

/-- A CRC-valid all-zero DPRS record: the DPRS tag at bytes 0-3 and
30-33, zeroes elsewhere (the CRC-16/CCITT of zero bytes from init 0 is
0, matching the zero checksum bytes). -/
def dprsBuf : Bytes := fun i =>
  if i = 0 then 0x44 else if i = 1 then 0x50
  else if i = 2 then 0x52 else if i = 3 then 0x53
  else if i = 30 then 0x44 else if i = 31 then 0x50
  else if i = 32 then 0x52 else if i = 33 then 0x53
  else 0

/-- The parser record produced by a successful standard cache pass. -/
def stdCachedParser (p : DiveParser) : DiveParser :=
  { p with
    size := stdLength p.data
    mode := stdMode p.model p.data
    nsamples := stdNsamples p.model p.data
    samplesize := stdSamplesize p.model p.data
    headersize := stdHeadersize p.model p.data
    settings := stdSettings p.model p.mode p.data
    interval := stdInterval p.model p.mode p.data
    samplerate := stdSamplerate p.model p.mode p.data
    ntanks := stdNtanks p.model p.data
    ngasmixes := stdNgasmixes p.model p.data
    gasmix := fun i =>
      if i < stdNgasmixes p.model p.data then stdGasmix p.model p.data i else p.gasmix i
    tank := fun i =>
      if i < stdNtanks p.model p.data then stdTank p.model p.data i else p.tank i
    cached := true }

/-- The parser record produced by a successful GENIUS cache pass. -/
def geniusCachedParser (p : DiveParser) : DiveParser :=
  { p with
    mode := geniusSettings p.data &&& 0xF
    nsamples := geniusNsamples p.data
    samplesize := DPRS_SIZE
    headersize := 0xB8
    settings := geniusSettings p.data
    interval := 5
    samplerate := 1
    ntanks := (geniusScan p.data).ntanks
    ngasmixes := (geniusScan p.data).ngasmixes
    gasmix := fun i =>
      if i < (geniusScan p.data).ngasmixes then (geniusScan p.data).gasmix i else p.gasmix i
    tank := fun i =>
      if i < (geniusScan p.data).ntanks then (geniusScan p.data).tank i else p.tank i
    cached := true }

theorem iconhd_cache_ok_eq {p q : DiveParser} (h : mares_iconhd_cache p = .ok q) :
    q = stdCachedParser p := by
  unfold mares_iconhd_cache at h
  split_ifs at h
  exact ((Except.ok.injEq _ _).mp h).symm

theorem iconhd_cache_ok_conds {p q : DiveParser} (h : mares_iconhd_cache p = .ok q) :
    4 ≤ p.size ∧ 4 + stdHeader0 p.model ≤ stdLength p.data ∧ stdLength p.data ≤ p.size ∧
      4 + stdHeadersize p.model p.data ≤ stdLength p.data ∧
      stdLength p.data = stdNbytes p.model p.mode p.data := by
  unfold mares_iconhd_cache at h
  split_ifs at h with h1 h2 h3 h4
  push_neg at h2
  exact ⟨by omega, by omega, h2.2, by omega, by simpa using h4⟩

theorem iconhd_cache_error_status {p : DiveParser} {s : DcStatus}
    (h : mares_iconhd_cache p = .error s) : s = .dataformat := by
  unfold mares_iconhd_cache at h
  split_ifs at h <;> simp_all

theorem iconhd_cache_ok_of_conds {p : DiveParser}
    (h1 : 4 ≤ p.size) (h2 : 4 + stdHeader0 p.model ≤ stdLength p.data)
    (h3 : stdLength p.data ≤ p.size)
    (h4 : 4 + stdHeadersize p.model p.data ≤ stdLength p.data)
    (h5 : stdLength p.data = stdNbytes p.model p.mode p.data) :
    mares_iconhd_cache p = .ok (stdCachedParser p) := by
  unfold mares_iconhd_cache
  split_ifs with g1 g2 g3 g4
  · omega
  · push_neg at *; omega
  · omega
  · exact absurd h5 g4
  · rfl

theorem genius_cache_ok_eq {p q : DiveParser} (h : mares_genius_cache p = .ok q) :
    q = geniusCachedParser p := by
  unfold mares_genius_cache at h
  split_ifs at h
  exact ((Except.ok.injEq _ _).mp h).symm

theorem genius_cache_ok_conds {p q : DiveParser} (h : mares_genius_cache p = .ok q) :
    4 ≤ p.size ∧ geniusHeaderOk p.data ∧ 0xB8 ≤ p.size ∧ geniusNbytes p.data ≤ p.size := by
  unfold mares_genius_cache at h
  split_ifs at h with h1 h2 h3 h4
  exact ⟨by omega, by tauto, by omega, by omega⟩

theorem genius_cache_error_status {p : DiveParser} {s : DcStatus}
    (h : mares_genius_cache p = .error s) : s = .dataformat := by
  unfold mares_genius_cache at h
  split_ifs at h <;> simp_all

theorem genius_cache_ok_of_conds {p : DiveParser}
    (h1 : 4 ≤ p.size) (h2 : geniusHeaderOk p.data) (h3 : 0xB8 ≤ p.size)
    (h4 : geniusNbytes p.data ≤ p.size) :
    mares_genius_cache p = .ok (geniusCachedParser p) := by
  unfold mares_genius_cache
  rw [if_neg (by omega), if_neg (by simp [h2]), if_neg (by omega), if_neg (by omega)]
  rfl

theorem parser_cache_dispatch_genius {p : DiveParser} (hc : p.cached = false)
    (hm : p.model = GENIUS) :
    mares_iconhd_parser_cache p = mares_genius_cache p := by
  unfold mares_iconhd_parser_cache
  simp [hc, hm]

theorem parser_cache_dispatch_std {p : DiveParser} (hc : p.cached = false)
    (hm : p.model ≠ GENIUS) :
    mares_iconhd_parser_cache p = mares_iconhd_cache p := by
  unfold mares_iconhd_parser_cache
  simp [hc, hm]

theorem parser_cache_ok_model_data {p q : DiveParser}
    (h : mares_iconhd_parser_cache p = .ok q) :
    q.model = p.model ∧ q.data = p.data ∧ q.cached = true ∧
      mares_iconhd_parser_cache q = .ok q := by
  unfold mares_iconhd_parser_cache at h ⊢
  split_ifs at h with h1 h2
  · cases h
    simp [h1]
  · rw [genius_cache_ok_eq h]
    simp [geniusCachedParser]
  · rw [iconhd_cache_ok_eq h]
    simp [stdCachedParser]

theorem activeLenFrom_le_of_inactive {f : Nat → Bool} :
    ∀ fuel i j, f (i + j) = false → activeLenFrom f i fuel ≤ j := by
  intro fuel
  induction fuel with
  | zero => intro i j _; simp [activeLenFrom]
  | succ n ih =>
    intro i j hf
    unfold activeLenFrom
    split
    · rename_i hfi
      match j with
      | 0 => rw [Nat.add_zero] at hf; rw [hf] at hfi; cases hfi
      | j + 1 =>
        have hj : (i + 1) + j = i + (j + 1) := by omega
        have := ih (i + 1) j (by rw [hj]; exact hf)
        omega
    · omega

theorem activeLenFrom_active {f : Nat → Bool} :
    ∀ fuel i j, j < activeLenFrom f i fuel → f (i + j) = true := by
  intro fuel
  induction fuel with
  | zero => intro i j h; simp [activeLenFrom] at h
  | succ n ih =>
    intro i j h
    unfold activeLenFrom at h
    split at h
    · rename_i hfi
      match j with
      | 0 => simpa using hfi
      | j + 1 =>
        have := ih (i + 1) j (by omega)
        have hj : (i + 1) + j = i + (j + 1) := by omega
        rw [hj] at this
        exact this
    · omega

theorem activeLen_le_of_inactive {f : Nat → Bool} {limit i : Nat}
    (h : f i = false) : activeLen f limit ≤ i := by
  have := activeLenFrom_le_of_inactive (f := f) limit 0 i (by simpa using h)
  simpa [activeLen] using this

theorem activeLen_active {f : Nat → Bool} {limit j : Nat}
    (h : j < activeLen f limit) : f j = true := by
  have := activeLenFrom_active (f := f) limit 0 j (by simpa [activeLen] using h)
  simpa using this


theorem geniusScanStep_ngasmixes (d : Bytes) (s : GScan) (i : Nat) :
    (geniusScanStep d s i).ngasmixes =
      if geniusGasActive d i ∧ s.ngasmixes = i then s.ngasmixes + 1 else s.ngasmixes := by
  simp only [geniusScanStep]
  split <;> split <;> simp_all

theorem geniusScanStep_ntanks (d : Bytes) (s : GScan) (i : Nat) :
    (geniusScanStep d s i).ntanks =
      if geniusTankActive d i ∧ s.ntanks = i then s.ntanks + 1 else s.ntanks := by
  simp only [geniusScanStep]
  split <;> split <;> simp_all

/-- The GENIUS scan truncated to the first `n` slots. -/
def geniusScanN (d : Bytes) (n : Nat) : GScan :=
  (List.range n).foldl (geniusScanStep d) gscanZero

theorem geniusScanN_succ (d : Bytes) (n : Nat) :
    geniusScanN d (n + 1) = geniusScanStep d (geniusScanN d n) n := by
  unfold geniusScanN
  rw [List.range_succ, List.foldl_append]
  rfl

theorem geniusScan_eq_scanN (d : Bytes) : geniusScan d = geniusScanN d 5 := rfl

theorem geniusScanN_inv (d : Bytes) : ∀ n : Nat,
    (geniusScanN d n).ngasmixes ≤ n ∧ (geniusScanN d n).ntanks ≤ n ∧
    (∀ i, i < n → geniusGasActive d i = false → (geniusScanN d n).ngasmixes ≤ i) ∧
    (∀ i, i < n → geniusTankActive d i = false → (geniusScanN d n).ntanks ≤ i) ∧
    (∀ j, j < (geniusScanN d n).ngasmixes → geniusGasActive d j = true) ∧
    (∀ j, j < (geniusScanN d n).ntanks → geniusTankActive d j = true) := by
  intro n
  induction n with
  | zero =>
    refine ⟨by simp [geniusScanN, gscanZero], by simp [geniusScanN, gscanZero], ?_, ?_, ?_, ?_⟩
    · intro i hi; omega
    · intro i hi; omega
    · intro j hj; simp [geniusScanN, gscanZero] at hj
    · intro j hj; simp [geniusScanN, gscanZero] at hj
  | succ n ih =>
    obtain ⟨hg1, ht1, hg2, ht2, hg3, ht3⟩ := ih
    rw [geniusScanN_succ]
    rw [geniusScanStep_ngasmixes, geniusScanStep_ntanks]
    refine ⟨?_, ?_, ?_, ?_, ?_, ?_⟩
    · split <;> omega
    · split <;> omega
    · intro i hi hfi
      split
      · rename_i hcond
        rcases Nat.lt_succ_iff_lt_or_eq.mp hi with hlt | heq
        · have hact := hg3 i (by omega)
          rw [hact] at hfi
          cases hfi
        · rw [heq] at hfi
          exact absurd hcond.1 (by simp [hfi])
      · rcases Nat.lt_succ_iff_lt_or_eq.mp hi with hlt | heq
        · exact hg2 i hlt hfi
        · omega
    · intro i hi hfi
      split
      · rename_i hcond
        rcases Nat.lt_succ_iff_lt_or_eq.mp hi with hlt | heq
        · have hact := ht3 i (by omega)
          rw [hact] at hfi
          cases hfi
        · rw [heq] at hfi
          exact absurd hcond.1 (by simp [hfi])
      · rcases Nat.lt_succ_iff_lt_or_eq.mp hi with hlt | heq
        · exact ht2 i hlt hfi
        · omega
    · intro j hj
      split at hj
      · rename_i hcond
        rcases Nat.lt_succ_iff_lt_or_eq.mp hj with hlt | heq
        · exact hg3 j (by omega)
        · have hjn : j = n := by omega
          rw [hjn]
          exact hcond.1
      · exact hg3 j hj
    · intro j hj
      split at hj
      · rename_i hcond
        rcases Nat.lt_succ_iff_lt_or_eq.mp hj with hlt | heq
        · exact ht3 j (by omega)
        · have hjn : j = n := by omega
          rw [hjn]
          exact hcond.1
      · exact ht3 j hj

theorem crc_range_eq (d : Bytes) (size : Nat) :
    checksum_crc16_ccitt (shiftBytes d 4) (size - 10) 0 =
      crc16_ccitt_list (byteRange d 4 (size - 6)) 0 := by
  unfold checksum_crc16_ccitt byteRange
  have h : size - 6 - 4 = size - 10 := by omega
  rw [h]
  rfl

instance {e a : Type} [DecidableEq e] [DecidableEq a] : DecidableEq (Except e a) := fun x y =>
  match x, y with
  | .ok v, .ok w =>
    if h : v = w then isTrue (by rw [h]) else isFalse (by intro he; cases he; exact h rfl)
  | .ok _, .error _ => isFalse (by intro he; cases he)
  | .error _, .ok _ => isFalse (by intro he; cases he)
  | .error v, .error w =>
    if h : v = w then isTrue (by rw [h]) else isFalse (by intro he; cases he; exact h rfl)

/-- Helper for witnesses: whether a cache invocation succeeded. -/
def exceptIsOk {α : Type} (e : Except DcStatus α) : Bool :=
  match e with
  | .ok _ => true
  | .error _ => false

theorem genius_isvalid_characterisation (d : Bytes) (size ty : Nat) :
    mares_genius_isvalid d size ty = true ↔
      (10 ≤ size ∧ array_uint32_be d 0 = ty ∧ array_uint32_be d (size - 4) = ty ∧
        array_uint16_le d (size - 6) = crc16_ccitt_list (byteRange d 4 (size - 6)) 0) := by
  unfold mares_genius_isvalid
  rw [← crc_range_eq d size]
  split_ifs with h1 h2 h3 <;> simp_all <;> omega

/-- C6: `mares_genius_isvalid` accepts exactly the records of at least 10
bytes whose leading and trailing big-endian 32-bit tags both equal the
expected type and whose little-endian 16-bit checksum at `size - 6`
equals the CRC-16/CCITT (initial value 0) of the byte range
`[4, size - 6)`. -/
theorem claim_C6 (d : Bytes) (size ty : Nat) :
    mares_genius_isvalid d size ty = true ↔
      (10 ≤ size ∧ array_uint32_be d 0 = ty ∧ array_uint32_be d (size - 4) = ty ∧
        array_uint16_le d (size - 6) = crc16_ccitt_list (byteRange d 4 (size - 6)) 0) :=
  genius_isvalid_characterisation d size ty

theorem crc16_ccitt_list_zeros (bytes : List Nat) (h : ∀ b ∈ bytes, b = 0) :
    crc16_ccitt_list bytes 0 = 0 := by
  induction bytes with
  | nil => rfl
  | cons b l ih =>
    have hb : b = 0 := h b (by simp)
    unfold crc16_ccitt_list at ih ⊢
    rw [hb]
    have hstep : crc16_step 0 0 = 0 := by decide
    simp only [List.foldl_cons, hstep]
    exact ih (fun x hx => h x (by simp [hx]))

/-- C1: on the standard path, a successful cache requires the declared
length to equal the recomputed size `4 + headersize + nsamples*samplesize`
plus the air-integration or apnea extras (32-bit arithmetic), and any
mismatch fails with DataFormat; on the GENIUS path only the upper bound
`nbytes ≤ size` is required: exceeding the buffer fails with DataFormat,
and (all header checks passing) any `nbytes ≤ size` succeeds. -/
theorem claim_C1 :
    (∀ p q, p.model ≠ GENIUS → mares_iconhd_cache p = .ok q →
        stdLength p.data = stdNbytes p.model p.mode p.data) ∧
    (∀ p, p.model ≠ GENIUS → stdLength p.data ≠ stdNbytes p.model p.mode p.data →
        mares_iconhd_cache p = .error .dataformat) ∧
    (∀ p q, mares_genius_cache p = .ok q → geniusNbytes p.data ≤ p.size) ∧
    (∀ p, 4 ≤ p.size → geniusHeaderOk p.data → 0xB8 ≤ p.size →
        p.size < geniusNbytes p.data → mares_genius_cache p = .error .dataformat) ∧
    (∀ p, 4 ≤ p.size → geniusHeaderOk p.data → 0xB8 ≤ p.size →
        geniusNbytes p.data ≤ p.size → mares_genius_cache p = .ok (geniusCachedParser p)) := by
  refine ⟨?_, ?_, ?_, ?_, ?_⟩
  · intro p q _ h
    exact (iconhd_cache_ok_conds h).2.2.2.2
  · intro p _ hne
    unfold mares_iconhd_cache
    split_ifs with h1 h2 h3 <;> rfl
  · intro p q h
    exact (genius_cache_ok_conds h).2.2.2
  · intro p h1 h2 h3 h4
    unfold mares_genius_cache
    rw [if_neg (by omega), if_neg (by simp [h2]), if_neg (by omega), if_pos (by omega)]
  · intro p h1 h2 h3 h4
    exact genius_cache_ok_of_conds h1 h2 h3 h4

/-- Witness for C1 at concrete buffers: a SMART buffer with matching
sizes caches successfully and satisfies the equality; declared length 95
against recomputed 96 fails with DataFormat; the GENIUS buffer caches
with a recomputed size (546) strictly below its buffer size (600); the
same bytes in a 545-byte buffer fail with DataFormat. -/
theorem claim_C1_witness :
    stdLength pSmart.data = stdNbytes pSmart.model pSmart.mode pSmart.data ∧
    mares_iconhd_cache pSmartBad = .error .dataformat ∧
    geniusNbytes pGenius.data ≤ pGenius.size ∧
    mares_genius_cache pGeniusShort = .error .dataformat ∧
    mares_genius_cache pGenius = .ok (geniusCachedParser pGenius) := by
  refine ⟨?_, claim_C1.2.1 pSmartBad (by decide) (by decide), ?_,
    claim_C1.2.2.2.1 pGeniusShort (by decide) (by decide) (by decide) (by decide),
    claim_C1.2.2.2.2 pGenius (by decide) (by decide) (by decide) (by decide)⟩
  · match h : mares_iconhd_cache pSmart with
    | .ok q => exact claim_C1.1 pSmart q (by decide) h
    | .error s =>
      have hok : exceptIsOk (mares_iconhd_cache pSmart) = true := by decide
      rw [h] at hok
      simp [exceptIsOk] at hok
  · match h : mares_genius_cache pGenius with
    | .ok q => exact claim_C1.2.2.1 pGenius q h
    | .error s =>
      have hok : exceptIsOk (mares_genius_cache pGenius) = true := by decide
      rw [h] at hok
      simp [exceptIsOk] at hok

/-- C2 counterexample: for the ICONHD buffer `iconhdC2Buf` (declared
length 104, initial header 0x5C, trailer at offset 12) the cache stores
sample count 1, read at offset 14 = trailer + 2, while the 16-bit value
at trailer + 4 + 2 = offset 18 — where the claimed "+4" reading would
find the count — is 7. -/
theorem claim_C2_counterexample :
    (mares_iconhd_cache pIconhdC2).map (fun q => q.nsamples) = .ok 1 ∧
    stdLength pIconhdC2.data - stdHeader0 pIconhdC2.model = 12 ∧
    array_uint16_le pIconhdC2.data (12 + 4 + 2) = 7 ∧ (1 : Nat) ≠ 7 := by
  decide

/-- C2 (amended): the 16-bit type and sample-count fields are read
directly at the trailer `declared length - header`, with no further +4
offset for any variant: the SMART family reads count then type, every
other variant type then count (the +4 skip applies only to the later
header-fields pointer). -/
theorem claim_C2_amended : ∀ p q, p.model ≠ GENIUS →
    mares_iconhd_cache p = .ok q →
    (smartFamily p.model = true →
      q.nsamples = array_uint16_le p.data (stdLength p.data - stdHeader0 p.model) ∧
      q.mode = array_uint16_le p.data (stdLength p.data - stdHeader0 p.model + 2) &&& 0x03) ∧
    (smartFamily p.model = false →
      q.nsamples = array_uint16_le p.data (stdLength p.data - stdHeader0 p.model + 2) ∧
      q.mode = array_uint16_le p.data (stdLength p.data - stdHeader0 p.model) &&& 0x03) := by
  intro p q _ h
  rw [iconhd_cache_ok_eq h]
  constructor
  · intro hsf
    constructor
    · show stdNsamples p.model p.data = _
      simp [stdNsamples, hsf]
    · show stdMode p.model p.data = _
      simp [stdMode, stdType, hsf]
  · intro hsf
    constructor
    · show stdNsamples p.model p.data = _
      simp [stdNsamples, hsf]
    · show stdMode p.model p.data = _
      simp [stdMode, stdType, hsf]

/-- Witness for the amended C2 at `iconhdC2Buf`: ICONHD is not in the
SMART family, so the cached sample count is the 16-bit value at
trailer + 2 (offset 14), namely 1. -/
theorem claim_C2_witness :
    (mares_iconhd_cache pIconhdC2).map (fun q => q.nsamples) = .ok 1 := by
  match h : mares_iconhd_cache pIconhdC2 with
  | .ok q =>
    have hs := (claim_C2_amended pIconhdC2 q (by decide) h).2 (by decide)
    simp only [Except.map]
    rw [hs.1]
    decide
  | .error s =>
    have hok : exceptIsOk (mares_iconhd_cache pIconhdC2) = true := by decide
    rw [h] at hok
    simp [exceptIsOk] at hok

/-- C3 counterexample: for `iconhdFreediveBuf` the mode decoded from the
buffer is freedive (3), yet the cached settings value is 0x34, the 16-bit
value at header offset 0x0C — not the value 0x99 stored at header offset
0x08 from which the claim says it would be read. -/
theorem claim_C3_counterexample :
    (mares_iconhd_cache pIconhdFreedive).map (fun q => (q.mode, q.settings)) = .ok (3, 0x34) ∧
    array_uint16_le pIconhdFreedive.data (stdBase ICONHD iconhdFreediveBuf + 0x08) = 0x99 ∧
    (0x34 : Nat) ≠ 0x99 := by
  decide

/-- C3 (amended): the settings bitfield is read from header offset 0x1C
for SMARTAPNEA, otherwise from offset 0x08 when the mode *already stored
in the parser* (`parser->mode`, reset to air by construction and
`set_data`) is freedive, and from offset 0x0C otherwise; the mode decoded
from the current buffer plays no part in the choice. -/
theorem claim_C3_amended : ∀ p q, p.model ≠ GENIUS →
    mares_iconhd_cache p = .ok q →
    q.settings = array_uint16_le p.data (stdBase p.model p.data +
      (if p.model = SMARTAPNEA then 0x1C
       else if p.mode = ICONHD_FREEDIVE then 0x08 else 0x0C)) := by
  intro p q _ h
  rw [iconhd_cache_ok_eq h]
  show stdSettings p.model p.mode p.data = _
  unfold stdSettings
  split_ifs <;> rfl

/-- Witness for the amended C3 at `iconhdFreediveBuf`: the stored mode of
a freshly constructed parser is air, so the settings are read from header
offset 0x0C (value 0x34) even though the decoded mode is freedive. -/
theorem claim_C3_witness :
    (mares_iconhd_cache pIconhdFreedive).map (fun q => q.settings) = .ok 0x34 := by
  match h : mares_iconhd_cache pIconhdFreedive with
  | .ok q =>
    have hs := claim_C3_amended pIconhdFreedive q (by decide) h
    simp only [Except.map]
    rw [hs]
    decide
  | .error s =>
    have hok : exceptIsOk (mares_iconhd_cache pIconhdFreedive) = true := by decide
    rw [h] at hok
    simp [exceptIsOk] at hok

/-- C5: the cached gas-mix and tank lists are contiguous active prefixes
starting at slot 0.  The cached counts equal the scan results; on the
standard scanning path (nitrox mode for gas mixes, air-integrated models
for tanks, the only cases where slots are scanned) an inactive slot `i`
bounds the count by `i` and every counted slot is active; on the GENIUS
path the same holds for both lists. -/
theorem claim_C5 :
    (∀ p q, mares_iconhd_cache p = .ok q →
        q.ngasmixes = stdNgasmixes p.model p.data ∧ q.ntanks = stdNtanks p.model p.data) ∧
    (∀ m d i, stdMode m d = ICONHD_NITROX → iconhdGasActive m d i = false →
        stdNgasmixes m d ≤ i) ∧
    (∀ m d j, stdMode m d = ICONHD_NITROX → j < stdNgasmixes m d →
        iconhdGasActive m d j = true) ∧
    (∀ m d i, iconhdTankActive m d i = false → stdNtanks m d ≤ i) ∧
    (∀ m d j, j < stdNtanks m d → iconhdTankActive m d j = true) ∧
    (∀ p q, mares_genius_cache p = .ok q →
        q.ngasmixes = (geniusScan p.data).ngasmixes ∧
        q.ntanks = (geniusScan p.data).ntanks) ∧
    (∀ d i, geniusGasActive d i = false → (geniusScan d).ngasmixes ≤ i) ∧
    (∀ d j, j < (geniusScan d).ngasmixes → geniusGasActive d j = true) ∧
    (∀ d i, geniusTankActive d i = false → (geniusScan d).ntanks ≤ i) ∧
    (∀ d j, j < (geniusScan d).ntanks → geniusTankActive d j = true) := by
  refine ⟨?_, ?_, ?_, ?_, ?_, ?_, ?_, ?_, ?_, ?_⟩
  · intro p q h
    rw [iconhd_cache_ok_eq h]
    exact ⟨rfl, rfl⟩
  · intro m d i hmode hin
    unfold stdNgasmixes
    rw [hmode]
    simp only [ICONHD_NITROX, ICONHD_GAUGE, ICONHD_FREEDIVE, ICONHD_AIR]
    norm_num
    exact activeLen_le_of_inactive hin
  · intro m d j hmode hj
    unfold stdNgasmixes at hj
    rw [hmode] at hj
    simp only [ICONHD_NITROX, ICONHD_GAUGE, ICONHD_FREEDIVE, ICONHD_AIR] at hj
    norm_num at hj
    exact activeLen_active hj
  · intro m d i hin
    unfold stdNtanks
    split
    · exact activeLen_le_of_inactive hin
    · omega
  · intro m d j hj
    unfold stdNtanks at hj
    split at hj
    · exact activeLen_active hj
    · omega
  · intro p q h
    rw [genius_cache_ok_eq h]
    exact ⟨rfl, rfl⟩
  · intro d i hin
    rw [geniusScan_eq_scanN]
    by_cases hi : i < 5
    · exact (geniusScanN_inv d 5).2.2.1 i hi hin
    · have := (geniusScanN_inv d 5).1
      omega
  · intro d j hj
    rw [geniusScan_eq_scanN] at hj
    exact (geniusScanN_inv d 5).2.2.2.2.1 j hj
  · intro d i hin
    rw [geniusScan_eq_scanN]
    by_cases hi : i < 5
    · exact (geniusScanN_inv d 5).2.2.2.1 i hi hin
    · have := (geniusScanN_inv d 5).2.1
      omega
  · intro d j hj
    rw [geniusScan_eq_scanN] at hj
    exact (geniusScanN_inv d 5).2.2.2.2.2 j hj

/-- Witness for C5 at concrete buffers: on `iconhdNitroxBuf` (nitrox
mode, slot 1 disabled) the cached count is bounded by 1 and slot 0 is
active; on `geniusBuf` slot 0 is off so the count is 0; the cached counts
of both concrete parsers agree with the scans. -/
theorem claim_C5_witness :
    stdNgasmixes ICONHD iconhdNitroxBuf ≤ 1 ∧
    iconhdGasActive ICONHD iconhdNitroxBuf 0 = true ∧
    (geniusScan geniusBuf).ngasmixes ≤ 0 ∧
    (mares_iconhd_cache pIconhdNitrox).map (fun q => q.ngasmixes) = .ok 1 ∧
    (mares_genius_cache pGenius).map (fun q => q.ntanks) = .ok 0 := by
  refine ⟨claim_C5.2.1 ICONHD iconhdNitroxBuf 1 (by decide) (by decide),
    claim_C5.2.2.1 ICONHD iconhdNitroxBuf 0 (by decide) (by decide),
    claim_C5.2.2.2.2.2.2.1 geniusBuf 0 (by decide), ?_, ?_⟩
  · match h : mares_iconhd_cache pIconhdNitrox with
    | .ok q =>
      have hs := (claim_C5.1 pIconhdNitrox q h).1
      simp only [Except.map]
      rw [hs]
      decide
    | .error s =>
      have hok : exceptIsOk (mares_iconhd_cache pIconhdNitrox) = true := by decide
      rw [h] at hok
      simp [exceptIsOk] at hok
  · match h : mares_genius_cache pGenius with
    | .ok q =>
      have hs := (claim_C5.2.2.2.2.2.1 pGenius q h).2
      simp only [Except.map]
      rw [hs]
      decide
    | .error s =>
      have hok : exceptIsOk (mares_genius_cache pGenius) = true := by decide
      rw [h] at hok
      simp [exceptIsOk] at hok

/-- Recogniser for gas-mix-change events, used to isolate them in an
event stream. -/
def isGasmixEvent : SEvent → Bool
  | .gasmixEv _ => true
  | _ => false

theorem ige_time (t : Nat) : isGasmixEvent (.time t) = false := rfl

theorem ige_depth (v : ℚ) : isGasmixEvent (.depth v) = false := rfl

theorem ige_temp (v : ℚ) : isGasmixEvent (.temperature v) = false := rfl

theorem ige_gas (i : Nat) : isGasmixEvent (.gasmixEv i) = true := rfl

theorem ige_deco (s : Bool) (dd : ℚ) (dt : Nat) : isGasmixEvent (.deco s dd dt) = false := rfl

theorem ige_ascent : isGasmixEvent .eventAscent = false := rfl

theorem ige_ceiling : isGasmixEvent .eventCeiling = false := rfl

theorem ige_pressure (i : Nat) (v : ℚ) : isGasmixEvent (.pressure i v) = false := rfl

theorem alarmLoop_no_gasmix (fuel : Nat) : ∀ v i,
    (alarmLoop fuel v i).filter isGasmixEvent = [] := by
  induction fuel with
  | zero => intro v i; rfl
  | succ n ih =>
    intro v i
    unfold alarmLoop
    split
    · rfl
    · rw [List.filter_append, ih]
      unfold alarmEvent
      split_ifs <;> simp [ige_ascent, ige_ceiling]

theorem recGasmix_lt_16 (m : Nat) (d : Bytes) (offset : Nat) :
    recGasmix m d offset < 16 := by
  unfold recGasmix
  split
  · have := Nat.and_le_right (n := recMisc d offset >>> 6) (m := 0xF)
    omega
  · have h8 : u8 d (offset + 3) < 256 := Nat.mod_lt _ (by omega)
    have := Nat.and_le_left (n := u8 d (offset + 3)) (m := 0xF0)
    have h2 : u8 d (offset + 3) &&& 0xF0 ≤ 0xF0 := Nat.and_le_right
    omega

theorem genius_alarms_no_gasmix (a : Nat) :
    (mares_genius_alarm_events a).filter isGasmixEvent = [] :=
  alarmLoop_no_gasmix 32 a 0

theorem geniusDeco_not_gasmix (d : Bytes) (offset : Nat) :
    isGasmixEvent (geniusDecoEvent d offset) = false := by
  unfold geniusDecoEvent
  dsimp only
  split <;> rfl

/-- C4 (amended): in the standard per-interval and GENIUS record
processing, a record whose gas-mix index is out of range is rejected with
DataFormat only when the cached gas-mix count is positive — and by then
the record's Time, Depth and Temperature events have already been
delivered (so the abort is not free of partial emission); when the count
is zero the index is never checked; for an accepted record a
GasMixChange event is emitted exactly when the count is positive and the
index differs from the previous one, and the first record always emits
one when mixes exist (the previous index starts at the unreachable
sentinel `0xFFFFFFFF` while indices are below 16); a failing step makes
the whole walk fail with the same status and events. -/
theorem claim_C4_amended :
    (∀ p d done offset time prev,
      p.model ≠ SMARTAPNEA → (p.model = GENIUS ∨ p.mode ≠ ICONHD_FREEDIVE) →
      (p.model = GENIUS →
        mares_genius_isvalid (shiftBytes d offset) DPRS_SIZE DPRS_TYPE = true) →
      0 < p.ngasmixes → p.ngasmixes ≤ recGasmix p.model d offset →
      mares_iconhd_sample_step p d done offset time prev =
        (.error .dataformat,
          [.time (time + p.interval), .depth ((recDepth p.model d offset : ℚ) / 10),
           .temperature ((recTemp p.model d offset : ℚ) / 10)])) ∧
    (∀ p d done offset time prev,
      p.model ≠ SMARTAPNEA → (p.model = GENIUS ∨ p.mode ≠ ICONHD_FREEDIVE) →
      (p.model = GENIUS →
        mares_genius_isvalid (shiftBytes d offset) DPRS_SIZE DPRS_TYPE = true) →
      (0 < p.ngasmixes → recGasmix p.model d offset < p.ngasmixes) →
      (mares_iconhd_sample_step p d done offset time prev).2.filter isGasmixEvent =
        (if 0 < p.ngasmixes ∧ recGasmix p.model d offset ≠ prev
         then [.gasmixEv (recGasmix p.model d offset)] else [])) ∧
    (∀ p d done offset time,
      p.model ≠ SMARTAPNEA → (p.model = GENIUS ∨ p.mode ≠ ICONHD_FREEDIVE) →
      (p.model = GENIUS →
        mares_genius_isvalid (shiftBytes d offset) DPRS_SIZE DPRS_TYPE = true) →
      0 < p.ngasmixes → recGasmix p.model d offset < p.ngasmixes →
      (mares_iconhd_sample_step p d done offset time 0xFFFFFFFF).2.filter isGasmixEvent =
        [.gasmixEv (recGasmix p.model d offset)]) ∧
    (∀ p d done r offset time prev s evs,
      mares_iconhd_sample_step p d done offset time prev = (.error s, evs) →
      mares_iconhd_sample_loop p d done (r + 1) offset time prev = (.error s, evs)) := by
  have step2 : ∀ p d done offset time prev,
      p.model ≠ SMARTAPNEA → (p.model = GENIUS ∨ p.mode ≠ ICONHD_FREEDIVE) →
      (p.model = GENIUS →
        mares_genius_isvalid (shiftBytes d offset) DPRS_SIZE DPRS_TYPE = true) →
      (0 < p.ngasmixes → recGasmix p.model d offset < p.ngasmixes) →
      (mares_iconhd_sample_step p d done offset time prev).2.filter isGasmixEvent =
        (if 0 < p.ngasmixes ∧ recGasmix p.model d offset ≠ prev
         then [.gasmixEv (recGasmix p.model d offset)] else []) := by
    intro p d done offset time prev h1 h2 h3 h4
    unfold mares_iconhd_sample_step
    rw [if_neg h1]
    rw [if_neg (by tauto)]
    rw [if_neg (by
      intro hcon
      exact hcon.2 (h3 hcon.1))]
    dsimp only
    rw [if_neg (by
      intro hcon
      have := h4 hcon.1
      omega)]
    split
    · split
      all_goals
        dsimp only
        simp only [List.filter_append]
        split_ifs <;>
          simp [genius_alarms_no_gasmix, geniusDeco_not_gasmix, ige_time, ige_depth,
            ige_temp, ige_gas, ige_deco, ige_pressure]
    · dsimp only
      simp only [List.filter_append]
      split_ifs <;>
        simp [genius_alarms_no_gasmix, geniusDeco_not_gasmix, ige_time, ige_depth,
          ige_temp, ige_gas, ige_deco, ige_pressure]
  refine ⟨?_, step2, ?_, ?_⟩
  · intro p d done offset time prev h1 h2 h3 h4 h5
    unfold mares_iconhd_sample_step
    rw [if_neg h1]
    rw [if_neg (by tauto)]
    rw [if_neg (by
      intro hcon
      exact hcon.2 (h3 hcon.1))]
    dsimp only
    rw [if_pos ⟨h4, h5⟩]
  · intro p d done offset time h1 h2 h3 h4 h5
    rw [step2 p d done offset time 0xFFFFFFFF h1 h2 h3 (fun _ => h5)]
    rw [if_pos ⟨h4, by
      have := recGasmix_lt_16 p.model d offset
      omega⟩]
  · intro p d done r offset time prev s evs hstep
    unfold mares_iconhd_sample_loop
    rw [hstep]

/-- C4 counterexample: (a) on the gauge-mode buffer `iconhdGaugeBuf` the
cached gas-mix count is 0 and the single record's gas-mix index is 3 —
at least the count — yet the walk succeeds, so an out-of-range index is
not always rejected; (b) on `iconhdNitroxBuf` the index 1 equals the
count 1 and the walk does fail with DataFormat, but only after the
record's Time, Depth and Temperature events were already delivered, so
the abort is not free of partial per-record emission. -/
theorem claim_C4_counterexample :
    (recGasmix ICONHD iconhdGaugeBuf 4 = 3 ∧
      (mares_iconhd_parser_cache pIconhdGauge).map (fun q => q.ngasmixes) = .ok 0 ∧
      mares_iconhd_parser_samples_foreach pIconhdGauge =
        (.ok (), [.time 1, .depth 0, .temperature 0])) ∧
    (recGasmix ICONHD iconhdNitroxBuf 4 = 1 ∧
      (mares_iconhd_parser_cache pIconhdNitrox).map (fun q => q.ngasmixes) = .ok 1 ∧
      mares_iconhd_parser_samples_foreach pIconhdNitrox =
        (.error .dataformat, [.time 1, .depth 0, .temperature 0])) := by
  have hd1 : recDepth ICONHD iconhdGaugeBuf 4 = 0 := by decide
  have ht1 : recTemp ICONHD iconhdGaugeBuf 4 = 0 := by decide
  have hd2 : recDepth ICONHD iconhdNitroxBuf 4 = 0 := by decide
  have ht2 : recTemp ICONHD iconhdNitroxBuf 4 = 0 := by decide
  have hv1 : mares_iconhd_parser_samples_foreach pIconhdGauge =
      (.ok (), [.time 1, .depth ((recDepth ICONHD iconhdGaugeBuf 4 : ℚ) / 10),
        .temperature ((recTemp ICONHD iconhdGaugeBuf 4 : ℚ) / 10)]) := rfl
  have hv2 : mares_iconhd_parser_samples_foreach pIconhdNitrox =
      (.error .dataformat, [.time 1, .depth ((recDepth ICONHD iconhdNitroxBuf 4 : ℚ) / 10),
        .temperature ((recTemp ICONHD iconhdNitroxBuf 4 : ℚ) / 10)]) := rfl
  refine ⟨⟨by decide, by decide, ?_⟩, ⟨by decide, by decide, ?_⟩⟩
  · rw [hv1, hd1, ht1]
    norm_num
  · rw [hv2, hd2, ht2]
    norm_num

/-- A parser state as cached from `iconhdNitroxBuf` would be, used to
instantiate the per-record lemmas of the amended C4. -/
def pStepNitrox : DiveParser where
  model := ICONHD
  cached := true
  mode := ICONHD_NITROX
  nsamples := 1
  samplesize := 8
  headersize := 0x5C
  settings := 0
  interval := 1
  samplerate := 1
  ntanks := 0
  ngasmixes := 1
  gasmix := fun _ => ⟨0, 0⟩
  tank := fun _ => ⟨0, 0, 0, 0⟩
  data := iconhdNitroxBuf
  size := 104

/-- The same state with two cached gas mixes, so that index 1 is in
range. -/
def pStepNitrox2 : DiveParser :=
  { pStepNitrox with ngasmixes := 2 }

/-- Witness for the amended C4: at the concrete record of
`iconhdNitroxBuf` (gas-mix index 1), the step aborts with DataFormat
after the three record events when the count is 1; with count 2 the same
record's first occurrence emits exactly one GasMixChange event; the
failing step propagates to the walk. -/
theorem claim_C4_witness :
    mares_iconhd_sample_step pStepNitrox iconhdNitroxBuf 0 4 0 0xFFFFFFFF =
      (.error .dataformat,
        [.time (0 + pStepNitrox.interval),
         .depth ((recDepth pStepNitrox.model iconhdNitroxBuf 4 : ℚ) / 10),
         .temperature ((recTemp pStepNitrox.model iconhdNitroxBuf 4 : ℚ) / 10)]) ∧
    (mares_iconhd_sample_step pStepNitrox2 iconhdNitroxBuf 0 4 0 7).2.filter isGasmixEvent =
      (if 0 < pStepNitrox2.ngasmixes ∧ recGasmix pStepNitrox2.model iconhdNitroxBuf 4 ≠ 7
       then [.gasmixEv (recGasmix pStepNitrox2.model iconhdNitroxBuf 4)] else []) ∧
    (mares_iconhd_sample_step pStepNitrox2 iconhdNitroxBuf 0 4 0 0xFFFFFFFF).2.filter
        isGasmixEvent = [.gasmixEv (recGasmix pStepNitrox2.model iconhdNitroxBuf 4)] ∧
    mares_iconhd_sample_loop pStepNitrox iconhdNitroxBuf 0 1 4 0 0xFFFFFFFF =
      (.error .dataformat,
        [.time (0 + pStepNitrox.interval),
         .depth ((recDepth pStepNitrox.model iconhdNitroxBuf 4 : ℚ) / 10),
         .temperature ((recTemp pStepNitrox.model iconhdNitroxBuf 4 : ℚ) / 10)]) := by
  have h1 := claim_C4_amended.1 pStepNitrox iconhdNitroxBuf 0 4 0 0xFFFFFFFF
    (by decide) (by decide) (by decide) (by decide) (by decide)
  refine ⟨h1,
    claim_C4_amended.2.1 pStepNitrox2 iconhdNitroxBuf 0 4 0 7
      (by decide) (by decide) (by decide) (by decide),
    claim_C4_amended.2.2.1 pStepNitrox2 iconhdNitroxBuf 0 4 0
      (by decide) (by decide) (by decide) (by decide) (by decide),
    claim_C4_amended.2.2.2 pStepNitrox iconhdNitroxBuf 0 0 4 0 0xFFFFFFFF _ _ h1⟩

/-- C7: for a GENIUS parser whose header caches successfully, whose
profile tag, DSTR and TISS records validate, and whose sample walk
completes (all sample records validate), delivering the event list
`evs`, an invalid DEND record at the final offset makes `forEachSample`
return DataFormat while still having delivered exactly `evs`: the events
are not retracted. -/
theorem claim_C7 (p q : DiveParser) (off t pv : Nat) (evs : List SEvent)
    (hm : p.model = GENIUS)
    (hc : mares_iconhd_parser_cache p = .ok q)
    (hprof : geniusProfileOk (shiftBytes q.data q.headersize))
    (hdstr : mares_genius_isvalid (shiftBytes (shiftBytes q.data q.headersize) 4)
      DSTR_SIZE DSTR_TYPE = true)
    (htiss : mares_genius_isvalid
      (shiftBytes (shiftBytes q.data q.headersize) (4 + DSTR_SIZE)) TISS_SIZE TISS_TYPE = true)
    (hloop : mares_iconhd_sample_loop q (shiftBytes q.data q.headersize) 0 q.nsamples
      (4 + DSTR_SIZE + TISS_SIZE) 0 0xFFFFFFFF = (.ok (off, t, pv), evs))
    (hdend : mares_genius_isvalid (shiftBytes (shiftBytes q.data q.headersize) off)
      DEND_SIZE DEND_TYPE = false) :
    mares_iconhd_parser_samples_foreach p = (.error .dataformat, evs) := by
  have hqm : q.model = GENIUS := by
    rw [(parser_cache_ok_model_data hc).1, hm]
  unfold mares_iconhd_parser_samples_foreach
  split
  · rename_i s heq
    rw [hc] at heq
    cases heq
  · rename_i r heq
    rw [hc] at heq
    injection heq with heq
    subst heq
    rw [if_pos hqm]
    rw [if_neg (not_not_intro hprof), if_neg (not_not_intro hdstr),
      if_neg (not_not_intro htiss)]
    dsimp only
    rw [hloop]
    dsimp only
    rw [if_pos (by simp [hdend])]

set_option maxRecDepth 4000 in
/-- Witness for C7 on the concrete GENIUS buffer `geniusBuf` (zero
samples, valid DSTR and TISS, all-zero DEND): every sample event (none)
is delivered and the walk fails with DataFormat at the DEND check. -/
theorem claim_C7_witness :
    mares_iconhd_parser_samples_foreach pGenius = (.error .dataformat, []) := by
  match h : mares_iconhd_parser_cache pGenius with
  | .ok q =>
    have hdata : q.data = pGenius.data := (parser_cache_ok_model_data h).2.1
    have h1 : (mares_iconhd_parser_cache pGenius).map (fun r => r.headersize) = .ok 184 := by
      decide
    have h2 : (mares_iconhd_parser_cache pGenius).map (fun r => r.nsamples) = .ok 0 := by
      decide
    rw [h] at h1 h2
    simp only [Except.map, Except.ok.injEq] at h1 h2
    refine claim_C7 pGenius q 200 0 0xFFFFFFFF [] (by decide) h ?_ ?_ ?_ ?_ ?_
    · rw [hdata, h1]
      decide
    · rw [hdata, h1]
      rw [genius_isvalid_characterisation]
      refine ⟨by decide, by decide, by decide, ?_⟩
      rw [crc16_ccitt_list_zeros _ (by decide)]
      decide
    · rw [hdata, h1]
      rw [genius_isvalid_characterisation]
      refine ⟨by decide, by decide, by decide, ?_⟩
      rw [crc16_ccitt_list_zeros _ (by decide)]
      decide
    · rw [h2]
      rfl
    · rw [hdata, h1]
      decide
  | .error s =>
    have hok : exceptIsOk (mares_iconhd_parser_cache pGenius) = true := by decide
    rw [h] at hok
    simp [exceptIsOk] at hok

theorem genius_cache_interval {p q : DiveParser} (h : mares_genius_cache p = .ok q) :
    q.interval = 5 ∧ q.samplerate = 1 := by
  rw [genius_cache_ok_eq h]
  exact ⟨rfl, rfl⟩

/-- A minimal cached GENIUS parser state, used to instantiate per-record
lemmas about the GENIUS sample walk. -/
def pGeniusStep : DiveParser where
  model := GENIUS
  cached := true
  mode := 0
  nsamples := 1
  samplesize := DPRS_SIZE
  headersize := 0xB8
  settings := 0
  interval := 5
  samplerate := 1
  ntanks := 0
  ngasmixes := 0
  gasmix := fun _ => ⟨0, 0⟩
  tank := fun _ => ⟨0, 0, 0, 0⟩
  data := dprsBuf
  size := 600

/-- C8: every successful GENIUS header caching sets the sample interval
to 5 seconds and the sample rate to 1; consequently `getField(DiveTime)`
on a freshly cached GENIUS parser returns `nsamples * 5`, and every
validated GENIUS sample record starts by advancing the clock by exactly
5 seconds (its first delivered event is `Time (time + 5)`). -/
theorem claim_C8 :
    (∀ p q, mares_genius_cache p = .ok q → q.interval = 5 ∧ q.samplerate = 1) ∧
    (∀ p q, p.model = GENIUS → p.cached = false →
      mares_iconhd_parser_cache p = .ok q →
      mares_iconhd_parser_get_field p .divetime 0 true =
        (.success, some (.uval (q.nsamples * 5)))) ∧
    (∀ p d done offset time prev, p.model = GENIUS → p.interval = 5 →
      mares_genius_isvalid (shiftBytes d offset) DPRS_SIZE DPRS_TYPE = true →
      (mares_iconhd_sample_step p d done offset time prev).2.head? =
        some (.time (time + 5))) := by
  refine ⟨fun p q h => genius_cache_interval h, ?_, ?_⟩
  · intro p q hm hc0 hc
    have hg : mares_genius_cache p = .ok q := by
      rw [← parser_cache_dispatch_genius hc0 hm]
      exact hc
    have hqm : q.model = GENIUS := by
      rw [(parser_cache_ok_model_data hc).1, hm]
    have hint := (genius_cache_interval hg).1
    unfold mares_iconhd_parser_get_field
    rw [hc]
    dsimp only
    rw [if_neg (by decide)]
    rw [if_pos hqm, hint]
  · intro p d done offset time prev hm hint hvalid
    unfold mares_iconhd_sample_step
    rw [if_neg (by rw [hm]; decide)]
    rw [if_neg (by simp [hm])]
    rw [if_neg (by
      intro hcon
      exact hcon.2 hvalid)]
    dsimp only
    rw [hint]
    split
    · rfl
    · split
      · split
        · rfl
        · rfl
      · rfl

/-- Witness for C8: the concrete GENIUS parser `pGenius` caches with
interval 5 and rate 1; its dive-time field is `0 * 5 = 0`; a concrete
valid DPRS record advances the clock from 0 to 5. -/
theorem claim_C8_witness :
    (mares_genius_cache pGenius).map (fun q => (q.interval, q.samplerate)) = .ok (5, 1) ∧
    mares_iconhd_parser_get_field pGenius .divetime 0 true = (.success, some (.uval 0)) ∧
    (mares_iconhd_sample_step pGeniusStep dprsBuf 0 0 0 0xFFFFFFFF).2.head? =
      some (.time (0 + 5)) := by
  refine ⟨?_, ?_, ?_⟩
  · match h : mares_genius_cache pGenius with
    | .ok q =>
      have hs := claim_C8.1 pGenius q h
      simp only [Except.map]
      rw [hs.1, hs.2]
    | .error s =>
      have hok : exceptIsOk (mares_genius_cache pGenius) = true := by decide
      rw [h] at hok
      simp [exceptIsOk] at hok
  · match h : mares_iconhd_parser_cache pGenius with
    | .ok q =>
      have h2 : (mares_iconhd_parser_cache pGenius).map (fun r => r.nsamples) = .ok 0 := by
        decide
      rw [h] at h2
      simp only [Except.map, Except.ok.injEq] at h2
      have := claim_C8.2.1 pGenius q (by decide) (by decide) h
      rw [this, h2]
    | .error s =>
      have hok : exceptIsOk (mares_iconhd_parser_cache pGenius) = true := by decide
      rw [h] at hok
      simp [exceptIsOk] at hok
  · refine claim_C8.2.2 pGeniusStep dprsBuf 0 0 0 0xFFFFFFFF (by decide) (by decide) ?_
    rw [genius_isvalid_characterisation]
    refine ⟨by decide, by decide, by decide, ?_⟩
    rw [crc16_ccitt_list_zeros _ (by decide)]
    decide

theorem fresh_cache_zero_slots {m : Nat} {d : Bytes} {size : Nat} {q : DiveParser}
    (h : mares_iconhd_parser_cache (freshParser m d size) = .ok q) :
    (∀ i, q.ngasmixes ≤ i → q.gasmix i = ⟨0, 0⟩) ∧
    (∀ i, q.ntanks ≤ i → q.tank i = ⟨0, 0, 0, 0⟩) := by
  unfold mares_iconhd_parser_cache at h
  rw [if_neg (by simp [freshParser, mares_iconhd_parser_set_data,
    mares_iconhd_parser_create])] at h
  split_ifs at h with hm
  · have hq := genius_cache_ok_eq h
    subst hq
    simp only [geniusCachedParser] at *
    constructor <;> intro i hi
    · rw [if_neg (by omega)]
      rfl
    · rw [if_neg (by omega)]
      rfl
  · have hq := iconhd_cache_ok_eq h
    subst hq
    simp only [stdCachedParser] at *
    constructor <;> intro i hi
    · rw [if_neg (by omega)]
      rfl
    · rw [if_neg (by omega)]
      rfl

/-- C9: `getField` never range-checks the per-gas-mix or per-tank index
against the cached counts: for any freshly constructed parser whose
header caches successfully and any index `i` within the fixed 5-slot
capacity but at or above both cached counts, `getField(GASMIX, i)`
succeeds with the zero-initialised slot (0% oxygen, 0% helium, nitrogen
1), and — in the metric case — `getField(TANK, i)` succeeds with the
zero-initialised tank and the unknown gas-mix sentinel, never an
out-of-range error. -/
theorem claim_C9 : ∀ m d size q i,
    mares_iconhd_parser_cache (freshParser m d size) = .ok q →
    q.ngasmixes ≤ i → q.ntanks ≤ i → i < 5 →
    mares_iconhd_parser_get_field (freshParser m d size) .gasmixField i true =
      (.success, some (.mix 0 0 1)) ∧
    (fieldMetric q ≠ 0 →
      mares_iconhd_parser_get_field (freshParser m d size) .tankField i true =
        (.success, some (.tankv true 0 0 0 0 DC_GASMIX_UNKNOWN))) := by
  intro m d size q i hc hg ht hi5
  obtain ⟨hz1, hz2⟩ := fresh_cache_zero_slots hc
  constructor
  · unfold mares_iconhd_parser_get_field
    rw [hc]
    dsimp only
    rw [if_neg (by decide)]
    rw [hz1 i hg]
    norm_num
  · intro hmet
    unfold mares_iconhd_parser_get_field
    rw [hc]
    dsimp only
    rw [if_neg (by decide)]
    unfold fieldTank
    rw [hz2 i ht]
    rw [if_pos hmet]
    rw [if_neg (by omega : ¬i < q.ngasmixes)]
    norm_num

/-- Witness for C9 on `smartBuf` (air mode: one gas mix, zero tanks,
metric settings): index 2 is beyond both counts yet both field reads
succeed with the zero slot. -/
theorem claim_C9_witness :
    mares_iconhd_parser_get_field pSmart .gasmixField 2 true =
      (.success, some (.mix 0 0 1)) ∧
    mares_iconhd_parser_get_field pSmart .tankField 2 true =
      (.success, some (.tankv true 0 0 0 0 DC_GASMIX_UNKNOWN)) := by
  match h : mares_iconhd_parser_cache (freshParser SMART smartBuf 96) with
  | .ok q =>
    have h1 : (mares_iconhd_parser_cache (freshParser SMART smartBuf 96)).map
        (fun r => (r.ngasmixes, r.ntanks)) = .ok (1, 0) := by decide
    have h2 : (mares_iconhd_parser_cache (freshParser SMART smartBuf 96)).map
        (fun r => fieldMetric r) = .ok 256 := by decide
    rw [h] at h1 h2
    simp only [Except.map, Except.ok.injEq, Prod.mk.injEq] at h1 h2
    have hmain := claim_C9 SMART smartBuf 96 q 2 h (by omega) (by omega) (by omega)
    exact ⟨hmain.1, hmain.2 (by omega)⟩
  | .error s =>
    have hok : exceptIsOk (mares_iconhd_parser_cache (freshParser SMART smartBuf 96)) =
        true := by decide
    rw [h] at hok
    simp [exceptIsOk] at hok

/-- C10: all output pointers are optional and a NULL pointer suppresses
per-field errors: whenever header caching succeeds, `getField` with a
NULL value pointer returns success for every field kind and index —
including the kinds that return Unsupported (or DataFormat) through a
non-NULL pointer — and `getDateTime` with a NULL datetime pointer
returns success without producing any date fields. -/
theorem claim_C10 : ∀ p q, mares_iconhd_parser_cache p = .ok q →
    (∀ ty flags, mares_iconhd_parser_get_field p ty flags false = (.success, none)) ∧
    mares_iconhd_parser_get_datetime p false = (.success, none) ∧
    (∀ flags, mares_iconhd_parser_get_field p .other flags true = (.unsupported, none)) := by
  intro p q hc
  refine ⟨?_, ?_, ?_⟩
  · intro ty flags
    unfold mares_iconhd_parser_get_field
    rw [hc]
    dsimp only
    rw [if_pos rfl]
  · unfold mares_iconhd_parser_get_datetime
    rw [hc]
    dsimp only
    rw [if_pos rfl]
  · intro flags
    unfold mares_iconhd_parser_get_field
    rw [hc]
    dsimp only
    rw [if_neg (by decide)]

/-- Witness for C10 on `smartBuf`: salinity and tank queries through a
NULL pointer succeed, `getDateTime` with a NULL pointer succeeds, and an
unknown field kind with a non-NULL pointer is Unsupported. -/
theorem claim_C10_witness :
    mares_iconhd_parser_get_field pSmart .salinity 0 false = (.success, none) ∧
    mares_iconhd_parser_get_field pSmart .tankField 7 false = (.success, none) ∧
    mares_iconhd_parser_get_datetime pSmart false = (.success, none) ∧
    mares_iconhd_parser_get_field pSmart .other 0 true = (.unsupported, none) := by
  match h : mares_iconhd_parser_cache pSmart with
  | .ok q =>
    have hmain := claim_C10 pSmart q h
    exact ⟨hmain.1 .salinity 0, hmain.1 .tankField 7, hmain.2.1, hmain.2.2 0⟩
  | .error s =>
    have hok : exceptIsOk (mares_iconhd_parser_cache pSmart) = true := by decide
    rw [h] at hok
    simp [exceptIsOk] at hok
